import Mathlib

/-!
# select_many: batch read with a bin filter

A shallow embedding of `src/main/client/select_many.c` (the `select_many`
operation of the Aerospike Python client) and theorems about it.

Conventions of the embedding

* A C pointer that may be `NULL` is an `Option`.
* A `(pointer, length)` pair (`results, n`; the items of a Python list or
  tuple with its size) is a finite sequence; the `for (i = 0; i < size; i++)`
  loops over it are recursions over that sequence, visiting the elements in
  index order.
* `goto CLEANUP` is an early return of the state reached so far; the code
  after the `CLEANUP:` label is the function `cleanup`.
* Functions of the repository and of its libraries that are not part of
  `select_many.c` (`pyobject_to_key`, `pyobject_to_policy_batch`,
  `record_to_pyobject`, `error_to_pyobject`, `raise_exception`,
  `aerospike_batch_get_bins`, `MAX_UNICODE_OBJECTS`) are the fields of `Env`.
* Reference counts and `malloc`/`free` are not modelled.  Dereferencing a
  `NULL` pointer is the distinguished result `fault`.
-/

namespace SelectMany

/-! ## Python values -/

mutual
/-- A Python object, as far as the type checks of `select_many.c` tell them
apart: `PyList_Check`, `PyTuple_Check`, `PyUnicode_Check`, `PyString_Check`. -/
inductive PyObject where
  | none
  | int (v : Int)
  | float (mantissa : Int) (exponent : Int)
  | str (s : String)
  | unicode (s : String)
  | bytearray (b : List Nat)
  | tuple (items : PyObjs)
  | list (items : PyObjs)
  | dict (entries : PyObjs)
  deriving DecidableEq
/-- The item array of a Python list or tuple (for `dict`: its entries, each a
two-element tuple). -/
inductive PyObjs where
  | nil
  | cons (head : PyObject) (tail : PyObjs)
  deriving DecidableEq
end

/-- The items in index order. -/
def PyObjs.toList : PyObjs → List PyObject
  | .nil => []
  | .cons x xs => x :: xs.toList

/-- The item array holding the given items. -/
def PyObjs.ofList : List PyObject → PyObjs
  | [] => .nil
  | x :: xs => .cons x (PyObjs.ofList xs)

/-- Number of items, as `PyList_Size` and `PyTuple_Size` report it. -/
def PyObjs.size : PyObjs → Nat
  | .nil => 0
  | .cons _ xs => xs.size + 1

def PyList_Check : PyObject → Bool
  | .list _ => true
  | _ => false

def PyTuple_Check : PyObject → Bool
  | .tuple _ => true
  | _ => false

def PyUnicode_Check : PyObject → Bool
  | .unicode _ => true
  | _ => false

def PyString_Check : PyObject → Bool
  | .str _ => true
  | _ => false

/-- The byte string holding the UTF-8 encoding (`PyUnicode_AsUTF8String`). -/
def PyUnicode_AsUTF8String : PyObject → PyObject
  | .unicode s => .str s
  | o => o

/-- The character buffer of a byte string (`PyString_AsString`). -/
def PyString_AsString : PyObject → String
  | .str s => s
  | _ => ""

mutual
/-- Whether Python can hash the object (lists, dicts and bytearrays cannot be
dictionary keys, nor can a tuple that contains one). -/
def PyObject.hashable : PyObject → Bool
  | .list _ => false
  | .dict _ => false
  | .bytearray _ => false
  | .tuple items => items.hashable
  | _ => true
/-- Every item is hashable. -/
def PyObjs.hashable : PyObjs → Bool
  | .nil => true
  | .cons x xs => x.hashable && xs.hashable
end

/-- A Python dictionary as its entries in insertion order.  Keys are compared
structurally, which is Python equality on the `int`, `str` and `None` keys that
`batch_select_cb` creates. -/
abbrev PyDict := List (PyObject × PyObject)

/-- The entries after `d[k] = v`: the value of an existing key is replaced,
a new key is added at the end. -/
def PyDict.setItem : PyDict → PyObject → PyObject → PyDict
  | [], k, v => [(k, v)]
  | (k0, v0) :: rest, k, v =>
    if k0 = k then (k, v) :: rest else (k0, v0) :: PyDict.setItem rest k v

/-- The value stored under `k`, if any. -/
def PyDict.getItem : PyDict → PyObject → Option PyObject
  | [], _ => Option.none
  | (k0, v0) :: rest, k => if k0 = k then some v0 else PyDict.getItem rest k

/-- What a call of `PyDict_SetItem` does. -/
inductive SetItemResult where
  /-- returned 0, the dictionary is now `d` -/
  | ok (d : PyDict)
  /-- returned -1, the dictionary is unchanged -/
  | error
  /-- a `NULL` key or value was dereferenced -/
  | fault

/-- The call `PyDict_SetItem(d, key, value)`.  CPython requires both pointers
to be non-`NULL` and reads through them. -/
def PyDict_SetItem (d : PyDict) (key value : Option PyObject) : SetItemResult :=
  match key, value with
  | some k, some v => if k.hashable then .ok (PyDict.setItem d k v) else .error
  | _, _ => .fault

/-- An exception class with its attributes. -/
structure PyExceptionType where
  name : String
  attrs : List (String × PyObject)
  deriving DecidableEq

def PyObject_HasAttrString (t : PyExceptionType) (a : String) : Bool :=
  t.attrs.any (fun p => p.1 == a)

/-- The attribute `a` of `t`, if it has one. -/
def PyObject_GetAttrString (t : PyExceptionType) (a : String) : Option PyObject :=
  (t.attrs.find? (fun p => p.1 == a)).map Prod.snd

/-- The call `PyObject_SetAttrString(t, a, v)`; with `v = NULL` it deletes the
attribute. -/
def PyObject_SetAttrString (t : PyExceptionType) (a : String) (v : Option PyObject) :
    PyExceptionType :=
  match v with
  | some o => { t with attrs := (a, o) :: t.attrs.filter (fun p => !(p.1 == a)) }
  | Option.none => { t with attrs := t.attrs.filter (fun p => !(p.1 == a)) }

/-- The pending Python exception set by `PyErr_SetObject(type, value)`. -/
structure PyErr where
  type : PyExceptionType
  value : PyObject
  deriving DecidableEq

/-! ## Cluster client types -/

/-- The enumerators of `as_status` that `select_many.c` names; `other` is any
further enumerator, identified by its number. -/
inductive as_status where
  | AEROSPIKE_OK
  | AEROSPIKE_ERR_PARAM
  | AEROSPIKE_ERR_CLUSTER
  | AEROSPIKE_ERR_RECORD_NOT_FOUND
  | other (code : Int)
  deriving DecidableEq

/-- The fields of `as_error` the code reads or writes. -/
structure as_error where
  code : as_status
  message : String
  deriving DecidableEq

def as_error_init : as_error := ⟨.AEROSPIKE_OK, ""⟩

def as_error_update (_err : as_error) (code : as_status) (message : String) : as_error :=
  ⟨code, message⟩

/-- A value with its `as_val` type tag; `AS_BYTES` stands for every tag other
than `AS_INTEGER` and `AS_STRING`. -/
inductive as_val where
  | AS_INTEGER (value : Int)
  | AS_STRING (value : String)
  | AS_BYTES (value : List Nat)
  deriving DecidableEq

structure as_key where
  ns : String
  set : String
  /-- the user value, `NULL` for a key known by its digest only -/
  valuep : Option as_val
  digest : List Nat
  deriving DecidableEq

structure as_record where
  gen : Nat
  ttl : Nat
  bins : List (String × as_val)
  deriving DecidableEq

/-- One entry of the `results` array handed to the batch callback. -/
structure as_batch_read where
  key : as_key
  result : as_status
  record : as_record
  deriving DecidableEq

/-- An `as_batch`: `size` key slots, of which `entries` have been filled, in
slot order. -/
structure as_batch where
  size : Nat
  entries : List as_key
  deriving DecidableEq

def as_batch_init (size : Nat) : as_batch := ⟨size, []⟩

/-- Writing the converted key through `as_batch_keyat(&batch, i)`, where `i` is
the number of slots filled so far. -/
def as_batch_setkey (batch : as_batch) (key : as_key) : as_batch :=
  { batch with entries := batch.entries ++ [key] }

structure as_policy_batch where
  timeout : Nat
  deriving DecidableEq

/-- The cluster handle `aerospike`, with `config.policies.batch`. -/
structure aerospike where
  policies_batch : as_policy_batch
  deriving DecidableEq

structure AerospikeClient where
  as : Option aerospike
  is_conn_16 : Bool
  deriving DecidableEq

/-- The pool of byte strings made from unicode bin names. -/
structure UnicodePyObjects where
  ob : List PyObject
  size : Nat
  deriving DecidableEq

/-! ## Collaborators outside `select_many.c` -/

/-- How `aerospike_batch_get_bins` interacts with the callback it is given: it
either finishes with the status it leaves in `err`, or hands the callback an
array of results and continues according to the boolean the callback returned.
The `udata` pointer is opaque to it. -/
inductive BatchRun where
  | done (status : as_error)
  | deliver (results : List as_batch_read) (next : Bool → BatchRun)

/-- The functions and constants `select_many.c` uses but does not define. -/
structure Env where
  /-- capacity of the unicode pool -/
  MAX_UNICODE_OBJECTS : Nat
  /-- conversion of a key tuple: the error it leaves in `err`, and the key -/
  pyobject_to_key : PyObject → as_error × as_key
  /-- conversion of the policy argument, given the configured defaults: the
  error it leaves in `err`, and `batch_policy_p` -/
  pyobject_to_policy_batch :
    Option PyObject → as_policy_batch → as_error × Option as_policy_batch
  /-- decoding of a record: the object left in `rec`, `NULL` on failure -/
  record_to_pyobject : as_record → as_key → Option PyObject
  /-- the Python value describing an error -/
  error_to_pyobject : as_error → PyObject
  /-- the exception class for an error -/
  raise_exception : as_error → PyExceptionType
  /-- the batch read of the cluster client, from handle, policy, batch, filter
  bins and their number -/
  aerospike_batch_get_bins :
    aerospike → Option as_policy_batch → as_batch → List String → Nat → BatchRun

/-! ## store_unicode_bins -/

/-- The pool after `store_unicode_bins(u_obj, py_uobj)`; the function returns
`py_uobj` itself. -/
def store_unicode_bins (env : Env) (u_obj : UnicodePyObjects) (py_uobj : PyObject) :
    UnicodePyObjects × PyObject :=
  if u_obj.size < env.MAX_UNICODE_OBJECTS then
    ({ ob := u_obj.ob ++ [py_uobj], size := u_obj.size + 1 }, py_uobj)
  else
    (u_obj, py_uobj)

/-! ## batch_select_cb -/

/-- What a call of the callback does. -/
inductive CbResult where
  /-- it returned `ok`, leaving the dictionary as `py_recs` -/
  | returned (ok : Bool) (py_recs : PyDict)
  /-- it dereferenced a `NULL` pointer -/
  | fault

/-- The value of `p_key` after lines 73-89: the integer or string user value,
`Py_None` when `valuep` is `NULL`, and still `NULL` for any other value type.
The integer is the `int64_t` value cast to `long`, the same number where `long`
has 64 bits. -/
def p_key_of (key : as_key) : Option PyObject :=
  match key.valuep with
  | some (.AS_INTEGER v) => some (.int v)
  | some (.AS_STRING s) => some (.str s)
  | some (.AS_BYTES _) => Option.none
  | Option.none => some PyObject.none

/-- The callback `batch_select_cb(results, n, udata)`, with `udata` the
dictionary `py_recs`. -/
def batch_select_cb (env : Env) : List as_batch_read → PyDict → CbResult
  | [], py_recs => .returned true py_recs
  | r :: rest, py_recs =>
    let p_key := p_key_of r.key
    if r.result = .AEROSPIKE_OK then
      let rec_ := env.record_to_pyobject r.record r.key
      match PyDict_SetItem py_recs p_key rec_ with
      | .fault => .fault
      | .error => .returned false py_recs
      | .ok d => batch_select_cb env rest d
    else if r.result = .AEROSPIKE_ERR_RECORD_NOT_FOUND then
      match PyDict_SetItem py_recs p_key (some PyObject.none) with
      | .fault => .fault
      | .error => .returned false py_recs
      | .ok d => batch_select_cb env rest d
    else
      -- Py_DECREF(p_key)
      match p_key with
      | Option.none => .fault
      | some _ => batch_select_cb env rest py_recs

/-! ## AerospikeClient_Select_Many_Invoke -/

/-- The arguments of the call of `aerospike_batch_get_bins`. -/
structure DispatchCall where
  as : aerospike
  policy : Option as_policy_batch
  batch : as_batch
  bins : List String
  n_bins : Nat
  deriving DecidableEq

/-- The local variables of `AerospikeClient_Select_Many_Invoke`, and a record of
the calls it has made so far (`converted`, `dispatched`, `delivered`). -/
structure Locals where
  py_recs : PyDict
  err : as_error
  batch : as_batch
  batch_initialised : Bool
  filter_bins : Option (List String)
  bins_size : Nat
  u_objs : UnicodePyObjects
  batch_policy_p : Option as_policy_batch
  /-- the objects passed to `pyobject_to_key`, in order -/
  converted : List PyObject
  /-- the call of `aerospike_batch_get_bins`, if it was made -/
  dispatched : Option DispatchCall
  /-- the results handed to `batch_select_cb`, in order -/
  delivered : List as_batch_read
  deriving DecidableEq

/-- The locals after the declarations and `as_error_init(&err)`. -/
def Locals.init : Locals :=
  { py_recs := [], err := as_error_init, batch := ⟨0, []⟩, batch_initialised := false,
    filter_bins := Option.none, bins_size := 0, u_objs := ⟨[], 0⟩,
    batch_policy_p := Option.none, converted := [], dispatched := Option.none,
    delivered := [] }

/-- The loop of lines 171-185 over the items of a list, from the item at the
head on. -/
def keys_loop_list (env : Env) : List PyObject → Locals → Locals
  | [], l => l
  | py_key :: rest, l =>
    if !PyTuple_Check py_key then
      { l with
        err := as_error_update l.err .AEROSPIKE_ERR_PARAM
          "Key should be a tuple." }
    else
      let r := env.pyobject_to_key py_key
      let l1 := { l with err := r.1, batch := as_batch_setkey l.batch r.2,
                         converted := l.converted ++ [py_key] }
      if r.1.code ≠ .AEROSPIKE_OK then l1 else keys_loop_list env rest l1

/-- The loop of lines 194-207 over the items of a tuple, from the item at the
head on. -/
def keys_loop_tuple (env : Env) : List PyObject → Locals → Locals
  | [], l => l
  | py_key :: rest, l =>
    if !PyTuple_Check py_key then
      { l with
        err := as_error_update l.err .AEROSPIKE_ERR_PARAM
          "Key should be a tuple." }
    else
      let r := env.pyobject_to_key py_key
      let l1 := { l with err := r.1, batch := as_batch_setkey l.batch r.2,
                         converted := l.converted ++ [py_key] }
      if r.1.code ≠ .AEROSPIKE_OK then l1 else keys_loop_tuple env rest l1

/-- Lines 164-212: conversion of `py_keys` into the batch. -/
def convert_keys (env : Env) (py_keys : Option PyObject) (l : Locals) : Locals :=
  match py_keys with
  | some (.list items) =>
    keys_loop_list env items.toList
      { l with batch := as_batch_init items.size, batch_initialised := true }
  | some (.tuple items) =>
    keys_loop_tuple env items.toList
      { l with batch := as_batch_init items.size, batch_initialised := true }
  | _ =>
    { l with
      err := as_error_update l.err .AEROSPIKE_ERR_PARAM
        "Keys should be specified as a list or tuple." }

/-- The loop of lines 229-251 over the bin names, from the item at the head
on; `filter_bins` is filled slot by slot. -/
def bins_loop (env : Env) : List PyObject → Locals → Locals
  | [], l => l
  | py_bin :: rest, l =>
    if PyUnicode_Check py_bin then
      let r := store_unicode_bins env l.u_objs (PyUnicode_AsUTF8String py_bin)
      bins_loop env rest
        { l with filter_bins := some (l.filter_bins.getD [] ++ [PyString_AsString r.2]),
                 u_objs := r.1 }
    else if PyString_Check py_bin then
      bins_loop env rest
        { l with filter_bins := some (l.filter_bins.getD [] ++ [PyString_AsString py_bin]) }
    else
      { l with
        err := as_error_update l.err .AEROSPIKE_ERR_PARAM
          "Bin name should be a string or unicode string." }

/-- Lines 214-251: the size check of `py_bins` and the filling of
`filter_bins`. -/
def convert_bins (env : Env) (py_bins : Option PyObject) (l : Locals) : Locals :=
  match py_bins with
  | some (.list items) =>
    bins_loop env items.toList { l with bins_size := items.size, filter_bins := some [] }
  | some (.tuple items) =>
    bins_loop env items.toList { l with bins_size := items.size, filter_bins := some [] }
  | _ =>
    { l with
      err := as_error_update l.err .AEROSPIKE_ERR_PARAM
        "Filter bins should be specified as a list or tuple." }

/-- The run of `aerospike_batch_get_bins` against `batch_select_cb`: the status
it ends with, the dictionary, and the results it handed over; `none` when the
callback faults. -/
def run_batch (env : Env) :
    BatchRun → PyDict → List as_batch_read → Option (as_error × PyDict × List as_batch_read)
  | .done status, py_recs, delivered => some (status, py_recs, delivered)
  | .deliver results next, py_recs, delivered =>
    match batch_select_cb env results py_recs with
    | .fault => Option.none
    | .returned ok d => run_batch env (next ok) d (delivered ++ results)

/-- Lines 253-264: policy conversion and the call of the cluster client. -/
def dispatch (env : Env) (as : aerospike) (py_policy : Option PyObject) (l : Locals) :
    Option Locals :=
  let p := env.pyobject_to_policy_batch py_policy as.policies_batch
  let l1 := { l with err := p.1, batch_policy_p := p.2 }
  if p.1.code ≠ .AEROSPIKE_OK then some l1
  else
    let call : DispatchCall :=
      { as := as, policy := p.2, batch := l1.batch, bins := l1.filter_bins.getD [],
        n_bins := l1.bins_size }
    match run_batch env
        (env.aerospike_batch_get_bins as p.2 l1.batch (l1.filter_bins.getD []) l1.bins_size)
        l1.py_recs [] with
    | Option.none => Option.none
    | some (status, d, delivered) =>
      some { l1 with err := status, py_recs := d, dispatched := some call,
                     delivered := delivered }

/-- Lines 131-264: the body up to the `CLEANUP:` label; `none` when the
callback faults. -/
def body (env : Env) (self : Option AerospikeClient)
    (py_keys py_bins py_policy : Option PyObject) : Option Locals :=
  let l := Locals.init
  match self with
  | Option.none =>
    some { l with
      err := as_error_update l.err .AEROSPIKE_ERR_PARAM
        "Invalid aerospike object" }
  | some client =>
    match client.as with
    | Option.none =>
      some { l with
        err := as_error_update l.err .AEROSPIKE_ERR_PARAM
          "Invalid aerospike object" }
    | some as =>
      if !client.is_conn_16 then
        some { l with
          err := as_error_update l.err .AEROSPIKE_ERR_CLUSTER
            "No connection to aerospike cluster" }
      else
        let l1 := convert_keys env py_keys l
        if l1.err.code ≠ .AEROSPIKE_OK then some l1
        else
          let l2 := convert_bins env py_bins l1
          if l2.err.code ≠ .AEROSPIKE_OK then some l2
          else dispatch env as py_policy l2

/-- What a call of `AerospikeClient_Select_Many_Invoke` leaves behind. -/
structure Outcome where
  /-- the locals at the `CLEANUP:` label -/
  locals : Locals
  /-- the exceptions set with `PyErr_SetObject` -/
  raised : List PyErr
  /-- the return value, `NULL` or the dictionary -/
  ret : Option PyDict
  deriving DecidableEq

/-- Lines 266-298: the code after the `CLEANUP:` label. -/
def cleanup (env : Env) (py_keys : Option PyObject) (l : Locals) : Outcome :=
  if l.err.code ≠ .AEROSPIKE_OK then
    let py_err := env.error_to_pyobject l.err
    let exception_type := env.raise_exception l.err
    let t1 :=
      if PyObject_HasAttrString exception_type "key" then
        PyObject_SetAttrString exception_type "key" py_keys
      else exception_type
    let t2 :=
      if PyObject_HasAttrString t1 "bin" then
        PyObject_SetAttrString t1 "bin" (some PyObject.none)
      else t1
    { locals := l, raised := [⟨t2, py_err⟩], ret := Option.none }
  else
    { locals := l, raised := [], ret := some l.py_recs }

/-- The function `AerospikeClient_Select_Many_Invoke(self, py_keys, py_bins,
py_policy)`; `none` when the callback faults. -/
def AerospikeClient_Select_Many_Invoke (env : Env) (self : Option AerospikeClient)
    (py_keys py_bins py_policy : Option PyObject) : Option Outcome :=
  (body env self py_keys py_bins py_policy).map (cleanup env py_keys)

/-! ## Sample collaborators

Concrete instances of the collaborators, used to evaluate the code on
concrete inputs. -/

namespace Sample

/-- The key a well-formed key tuple denotes: `(ns, set, int)`, `(ns, set, str)`,
`(ns, set, bytearray)` or `(ns, set, None, digest)`. -/
def key_of : PyObject → Option as_key
  | .tuple (.cons (.str ns) (.cons (.str set) (.cons (.int v) .nil))) =>
    some ⟨ns, set, some (.AS_INTEGER v), []⟩
  | .tuple (.cons (.str ns) (.cons (.str set) (.cons (.str s) .nil))) =>
    some ⟨ns, set, some (.AS_STRING s), []⟩
  | .tuple (.cons (.str ns) (.cons (.str set) (.cons (.bytearray b) .nil))) =>
    some ⟨ns, set, some (.AS_BYTES b), []⟩
  | .tuple (.cons (.str ns) (.cons (.str set)
      (.cons .none (.cons (.bytearray digest) .nil)))) =>
    some ⟨ns, set, Option.none, digest⟩
  | _ => Option.none

/-- A key conversion that reports every malformed key as a parameter error. -/
def pyobject_to_key (o : PyObject) : as_error × as_key :=
  match key_of o with
  | some k => (as_error_init, k)
  | Option.none => (⟨.AEROSPIKE_ERR_PARAM, "key is invalid"⟩, ⟨"", "", Option.none, []⟩)

/-- A policy conversion: no policy object selects the defaults. -/
def pyobject_to_policy_batch (py_policy : Option PyObject) (defaults : as_policy_batch) :
    as_error × Option as_policy_batch :=
  match py_policy with
  | Option.none => (as_error_init, Option.none)
  | some (.dict _) => (as_error_init, some defaults)
  | some _ => (⟨.AEROSPIKE_ERR_PARAM, "policy must be a dict"⟩, Option.none)

/-- A record decoder: generation, time to live and the names of the bins. -/
def record_to_pyobject (r : as_record) (_key : as_key) : Option PyObject :=
  some (.tuple (.cons (.int r.gen) (.cons (.int r.ttl)
    (.cons (.list (PyObjs.ofList (r.bins.map (fun b => PyObject.str b.1)))) .nil))))

def error_to_pyobject (e : as_error) : PyObject :=
  .tuple (.cons (.str e.message) .nil)

/-- Exception classes: only the record errors have the attributes `key` and
`bin`. -/
def raise_exception (e : as_error) : PyExceptionType :=
  match e.code with
  | .AEROSPIKE_ERR_PARAM => ⟨"ParamError", [("code", .none), ("msg", .none)]⟩
  | .AEROSPIKE_ERR_CLUSTER => ⟨"ClusterError", [("code", .none), ("msg", .none)]⟩
  | .AEROSPIKE_ERR_RECORD_NOT_FOUND =>
    ⟨"RecordNotFound", [("code", .none), ("msg", .none), ("key", .none), ("bin", .none)]⟩
  | _ => ⟨"AerospikeError", [("code", .none), ("msg", .none)]⟩

/-- A sample environment around a given cluster client. -/
def env (batch_get_bins :
    aerospike → Option as_policy_batch → as_batch → List String → Nat → BatchRun) : Env :=
  { MAX_UNICODE_OBJECTS := 32
    pyobject_to_key := pyobject_to_key
    pyobject_to_policy_batch := pyobject_to_policy_batch
    record_to_pyobject := record_to_pyobject
    error_to_pyobject := error_to_pyobject
    raise_exception := raise_exception
    aerospike_batch_get_bins := batch_get_bins }

/-- A cluster client that delivers one result per key of the batch, each with
the status `status`, in one array, and then reports success. -/
def uniform_cluster (status : as_status) :
    aerospike → Option as_policy_batch → as_batch → List String → Nat → BatchRun :=
  fun _ _ batch _ _ =>
    .deliver (batch.entries.map (fun k => ⟨k, status, ⟨1, 0, []⟩⟩))
      (fun _ => .done as_error_init)

/-- A cluster client that delivers the given results in one array and then
reports `status`. -/
def scripted_cluster (results : List as_batch_read) (status : as_error) :
    aerospike → Option as_policy_batch → as_batch → List String → Nat → BatchRun :=
  fun _ _ _ _ _ => .deliver results (fun _ => .done status)

def connected : AerospikeClient := ⟨some ⟨⟨1000⟩⟩, true⟩

def disconnected : AerospikeClient := ⟨some ⟨⟨1000⟩⟩, false⟩

/-- The key tuple `("test", "demo", n)`. -/
def int_key (n : Int) : PyObject :=
  .tuple (.cons (.str "test") (.cons (.str "demo") (.cons (.int n) .nil)))

/-- A cluster client that ends at once with `status`, delivering nothing. -/
def idle_cluster (status : as_error) :
    aerospike → Option as_policy_batch → as_batch → List String → Nat → BatchRun :=
  fun _ _ _ _ _ => .done status

/-- A client object whose cluster handle is missing. -/
def no_handle : AerospikeClient := ⟨Option.none, false⟩

/-- The batch key of `int_key n`. -/
def int_as_key (n : Int) : as_key := ⟨"test", "demo", some (.AS_INTEGER n), []⟩

/-- A record with the bin `x`. -/
def record_x : as_record := ⟨1, 0, [("x", .AS_STRING "v1")]⟩

/-- The bin filter `["x"]`. -/
def bins_x : PyObject := .list (.cons (.str "x") .nil)

/-- The keys `("test", "demo", 1)` to `("test", "demo", 10)`. -/
def ten_keys : PyObjs :=
  PyObjs.ofList [int_key 1, int_key 2, int_key 3, int_key 4, int_key 5, int_key 6,
    int_key 7, int_key 8, int_key 9, int_key 10]

/-- Three found records, for the keys 1 to 3. -/
def three_results : List as_batch_read :=
  [⟨int_as_key 1, .AEROSPIKE_OK, record_x⟩, ⟨int_as_key 2, .AEROSPIKE_OK, record_x⟩,
   ⟨int_as_key 3, .AEROSPIKE_OK, record_x⟩]

end Sample

/-! ## Reading the result of the callback -/

/-- The name `filter_bins[i]` receives for a text bin. -/
def bin_name (py_bin : PyObject) : String :=
  if PyUnicode_Check py_bin then PyString_AsString (PyUnicode_AsUTF8String py_bin)
  else PyString_AsString py_bin

/-- The value the callback stores for one result: the decoded record for
`AEROSPIKE_OK`, `None` for `AEROSPIKE_ERR_RECORD_NOT_FOUND`, nothing for any
other status. -/
def stored_value (env : Env) (r : as_batch_read) : Option PyObject :=
  if r.result = .AEROSPIKE_OK then env.record_to_pyobject r.record r.key
  else if r.result = .AEROSPIKE_ERR_RECORD_NOT_FOUND then some PyObject.none
  else Option.none

/-- The value stored for the last of the results whose display key is `k` and
whose status is `AEROSPIKE_OK` or `AEROSPIKE_ERR_RECORD_NOT_FOUND`. -/
def last_stored (env : Env) : List as_batch_read → PyObject → Option PyObject
  | [], _ => Option.none
  | r :: rest, k =>
    (last_stored env rest k).or
      (if p_key_of r.key = some k then stored_value env r else Option.none)

/-- The keys of a dictionary, in insertion order. -/
def PyDict.keys (d : PyDict) : List PyObject := d.map Prod.fst

/-! ## Key validation -/

theorem PyObjs.size_eq_length (items : PyObjs) : items.size = items.toList.length := by
  cases items with
  | nil => rfl
  | cons x xs => simp [PyObjs.size, PyObjs.toList, PyObjs.size_eq_length xs]

/-- The loop over a tuple and the loop over a list do the same on the same
items. -/
theorem keys_loop_tuple_eq_list (env : Env) (items : List PyObject) (l : Locals) :
    keys_loop_tuple env items l = keys_loop_list env items l := by
  induction items generalizing l with
  | nil => rfl
  | cons x xs ih =>
    simp only [keys_loop_tuple, keys_loop_list]
    split
    · rfl
    · split
      · rfl
      · exact ih _

/-- The key loop leaves everything but `err`, `batch` and `converted` alone. -/
theorem keys_loop_list_frame (env : Env) (items : List PyObject) (l : Locals) :
    (keys_loop_list env items l).dispatched = l.dispatched ∧
    (keys_loop_list env items l).py_recs = l.py_recs ∧
    (keys_loop_list env items l).delivered = l.delivered ∧
    (keys_loop_list env items l).filter_bins = l.filter_bins ∧
    (keys_loop_list env items l).bins_size = l.bins_size ∧
    (keys_loop_list env items l).u_objs = l.u_objs := by
  induction items generalizing l with
  | nil => simp [keys_loop_list]
  | cons x xs ih =>
    simp only [keys_loop_list]
    split
    · simp
    · split
      · simp
      · have h := ih { l with err := (env.pyobject_to_key x).1,
                              batch := as_batch_setkey l.batch (env.pyobject_to_key x).2,
                              converted := l.converted ++ [x] }
        simpa using h

/-- A key list with an element that is not a tuple never passes the key loop. -/
theorem keys_loop_list_not_tuple (env : Env) (items : List PyObject) (l : Locals)
    (h : ∃ x ∈ items, PyTuple_Check x = false) :
    (keys_loop_list env items l).err.code ≠ .AEROSPIKE_OK ∧
    ((∀ x ∈ items, (env.pyobject_to_key x).1.code = .AEROSPIKE_OK ∨
        (env.pyobject_to_key x).1.code = .AEROSPIKE_ERR_PARAM) →
      (keys_loop_list env items l).err.code = .AEROSPIKE_ERR_PARAM) := by
  induction items generalizing l with
  | nil => simp at h
  | cons x xs ih =>
    simp only [keys_loop_list]
    split
    · simp [as_error_update]
    · next hx =>
      have hx1 : PyTuple_Check x = true := by simpa using hx
      have h1 : ∃ y ∈ xs, PyTuple_Check y = false := by
        obtain ⟨y, hy, hy2⟩ := h
        rcases List.mem_cons.mp hy with rfl | hy
        · simp [hx1] at hy2
        · exact ⟨y, hy, hy2⟩
      split
      · next hc =>
        refine ⟨by simpa using hc, fun hall => ?_⟩
        rcases hall x (List.mem_cons_self _ _) with h0 | h0
        · exact absurd h0 hc
        · simpa using h0
      · have := ih { l with err := (env.pyobject_to_key x).1,
                            batch := as_batch_setkey l.batch (env.pyobject_to_key x).2,
                            converted := l.converted ++ [x] } h1
        exact ⟨this.1, fun hall => this.2 (fun y hy => hall y (List.mem_cons_of_mem _ hy))⟩

/-- The error code after the key loop is the one it started with, a parameter
error, or a code reported by `pyobject_to_key`. -/
theorem keys_loop_list_code (env : Env) (items : List PyObject) (l : Locals)
    (hall : ∀ x, (env.pyobject_to_key x).1.code = .AEROSPIKE_OK ∨
      (env.pyobject_to_key x).1.code = .AEROSPIKE_ERR_PARAM) :
    (keys_loop_list env items l).err.code = l.err.code ∨
    (keys_loop_list env items l).err.code = .AEROSPIKE_ERR_PARAM ∨
    (keys_loop_list env items l).err.code = .AEROSPIKE_OK := by
  induction items generalizing l with
  | nil => simp [keys_loop_list]
  | cons x xs ih =>
    simp only [keys_loop_list]
    split
    · simp [as_error_update]
    · split
      · rcases hall x with h0 | h0
        · exact Or.inr (Or.inr h0)
        · exact Or.inr (Or.inl h0)
      · next hc =>
        have hc0 : (env.pyobject_to_key x).1.code = .AEROSPIKE_OK := by simpa using hc
        have := ih { l with err := (env.pyobject_to_key x).1,
                            batch := as_batch_setkey l.batch (env.pyobject_to_key x).2,
                            converted := l.converted ++ [x] }
        rcases this with h1 | h1 | h1
        · exact Or.inr (Or.inr (h1.trans hc0))
        · exact Or.inr (Or.inl h1)
        · exact Or.inr (Or.inr h1)

/-- The key loop stops at the first element that is not a tuple or that
`pyobject_to_key` rejects: the elements after it play no part. -/
theorem keys_loop_list_stop (env : Env) (pre post : List PyObject) (x : PyObject) (l : Locals)
    (hpre : ∀ y ∈ pre, PyTuple_Check y = true ∧
      (env.pyobject_to_key y).1.code = .AEROSPIKE_OK) :
    (PyTuple_Check x = false →
      (keys_loop_list env (pre ++ x :: post) l).err =
          ⟨.AEROSPIKE_ERR_PARAM, "Key should be a tuple."⟩ ∧
        (keys_loop_list env (pre ++ x :: post) l).converted = l.converted ++ pre) ∧
    (PyTuple_Check x = true → (env.pyobject_to_key x).1.code ≠ .AEROSPIKE_OK →
      (keys_loop_list env (pre ++ x :: post) l).err = (env.pyobject_to_key x).1 ∧
        (keys_loop_list env (pre ++ x :: post) l).converted = l.converted ++ pre ++ [x]) := by
  induction pre generalizing l with
  | nil =>
    constructor
    · intro hx
      simp [keys_loop_list, hx, as_error_update]
    · intro hx hc
      simp [keys_loop_list, hx, hc]
  | cons y ys ih =>
    have hy := hpre y (List.mem_cons_self _ _)
    have hys : ∀ z ∈ ys, PyTuple_Check z = true ∧
        (env.pyobject_to_key z).1.code = .AEROSPIKE_OK :=
      fun z hz => hpre z (List.mem_cons_of_mem _ hz)
    have h := ih { l with err := (env.pyobject_to_key y).1,
                          batch := as_batch_setkey l.batch (env.pyobject_to_key y).2,
                          converted := l.converted ++ [y] } hys
    constructor
    · intro hx
      have := h.1 hx
      simpa [keys_loop_list, hy.1, hy.2] using this
    · intro hx hc
      have := h.2 hx hc
      simpa [keys_loop_list, hy.1, hy.2] using this

/-- When every element is a tuple that `pyobject_to_key` accepts, the key loop
fills the batch with the converted keys, in order. -/
theorem keys_loop_list_ok (env : Env) (items : List PyObject) (l : Locals)
    (hall : ∀ y ∈ items, PyTuple_Check y = true ∧
      (env.pyobject_to_key y).1.code = .AEROSPIKE_OK) :
    (keys_loop_list env items l).batch.entries =
        l.batch.entries ++ items.map (fun y => (env.pyobject_to_key y).2) ∧
      (keys_loop_list env items l).batch.size = l.batch.size ∧
      (keys_loop_list env items l).batch_initialised = l.batch_initialised ∧
      (keys_loop_list env items l).converted = l.converted ++ items ∧
      (items ≠ [] → (keys_loop_list env items l).err.code = .AEROSPIKE_OK) := by
  induction items generalizing l with
  | nil => simp [keys_loop_list]
  | cons y ys ih =>
    have hy := hall y (List.mem_cons_self _ _)
    have h := ih { l with err := (env.pyobject_to_key y).1,
                          batch := as_batch_setkey l.batch (env.pyobject_to_key y).2,
                          converted := l.converted ++ [y] }
      (fun z hz => hall z (List.mem_cons_of_mem _ hz))
    simp only [keys_loop_list, hy.1, hy.2]
    simp only [Bool.not_true, Bool.false_eq_true, if_false, ne_eq, not_true_eq_false]
    refine ⟨?_, ?_, ?_, ?_, ?_⟩
    · simpa [as_batch_setkey] using h.1
    · simpa [as_batch_setkey] using h.2.1
    · simpa using h.2.2.1
    · simpa using h.2.2.2.1
    · intro _
      by_cases hys : ys = []
      · subst hys
        simpa [keys_loop_list] using hy.2
      · exact h.2.2.2.2 hys

/-! ## Bin filter validation -/

/-- The bin loop leaves the batch and the record of calls alone. -/
theorem bins_loop_frame (env : Env) (items : List PyObject) (l : Locals) :
    (bins_loop env items l).dispatched = l.dispatched ∧
    (bins_loop env items l).py_recs = l.py_recs ∧
    (bins_loop env items l).delivered = l.delivered ∧
    (bins_loop env items l).batch = l.batch ∧
    (bins_loop env items l).converted = l.converted ∧
    (bins_loop env items l).bins_size = l.bins_size := by
  induction items generalizing l with
  | nil => simp [bins_loop]
  | cons x xs ih =>
    simp only [bins_loop]
    split
    · simpa using ih _
    · split
      · simpa using ih _
      · simp

/-- A bin collection with an element that is neither a unicode string nor a
byte string ends the bin loop with the parameter error. -/
theorem bins_loop_not_text (env : Env) (items : List PyObject) (l : Locals)
    (h : ∃ x ∈ items, PyUnicode_Check x = false ∧ PyString_Check x = false) :
    (bins_loop env items l).err =
      ⟨.AEROSPIKE_ERR_PARAM, "Bin name should be a string or unicode string."⟩ := by
  induction items generalizing l with
  | nil => simp at h
  | cons x xs ih =>
    have h1 : (PyUnicode_Check x = true ∨ PyString_Check x = true) →
        ∃ y ∈ xs, PyUnicode_Check y = false ∧ PyString_Check y = false := by
      intro hx
      obtain ⟨y, hy, hy2⟩ := h
      rcases List.mem_cons.mp hy with rfl | hy
      · rcases hx with hx | hx
        · simp [hx] at hy2
        · simp [hx] at hy2
      · exact ⟨y, hy, hy2⟩
    simp only [bins_loop]
    split
    · next hx => exact ih _ (h1 (Or.inl hx))
    · split
      · next hx => exact ih _ (h1 (Or.inr hx))
      · simp [as_error_update]

/-- When every bin is text, the bin loop keeps `err` and appends the names. -/
theorem bins_loop_text (env : Env) (items : List PyObject) (l : Locals)
    (h : ∀ x ∈ items, PyUnicode_Check x = true ∨ PyString_Check x = true) :
    (bins_loop env items l).err = l.err ∧
    (bins_loop env items l).filter_bins.getD [] =
      l.filter_bins.getD [] ++ items.map bin_name := by
  induction items generalizing l with
  | nil => simp [bins_loop]
  | cons x xs ih =>
    have hxs : ∀ y ∈ xs, PyUnicode_Check y = true ∨ PyString_Check y = true :=
      fun y hy => h y (List.mem_cons_of_mem _ hy)
    simp only [bins_loop]
    split
    · next hx =>
      have := ih { l with
        filter_bins := some (l.filter_bins.getD [] ++
          [PyString_AsString (store_unicode_bins env l.u_objs (PyUnicode_AsUTF8String x)).2]),
        u_objs := (store_unicode_bins env l.u_objs (PyUnicode_AsUTF8String x)).1 } hxs
      refine ⟨this.1, ?_⟩
      rw [this.2]
      have hs : (store_unicode_bins env l.u_objs (PyUnicode_AsUTF8String x)).2 =
          PyUnicode_AsUTF8String x := by
        unfold store_unicode_bins
        split <;> rfl
      simp [bin_name, hx, hs]
    · next hx =>
      have hstr : PyString_Check x = true := by
        rcases h x (List.mem_cons_self _ _) with h0 | h0
        · exact absurd h0 hx
        · exact h0
      simp only [hstr, if_true]
      have := ih { l with
        filter_bins := some (l.filter_bins.getD [] ++ [PyString_AsString x]) } hxs
      refine ⟨this.1, ?_⟩
      rw [this.2]
      simp [bin_name, hx]

/-! ## The code after the CLEANUP label -/

theorem cleanup_locals (env : Env) (py_keys : Option PyObject) (l : Locals) :
    (cleanup env py_keys l).locals = l := by
  unfold cleanup
  split <;> rfl

theorem cleanup_failed (env : Env) (py_keys : Option PyObject) (l : Locals)
    (h : l.err.code ≠ .AEROSPIKE_OK) :
    (cleanup env py_keys l).ret = Option.none ∧ (cleanup env py_keys l).raised.length = 1 := by
  unfold cleanup
  rw [if_pos h]
  exact ⟨rfl, rfl⟩

theorem cleanup_succeeded (env : Env) (py_keys : Option PyObject) (l : Locals)
    (h : l.err.code = .AEROSPIKE_OK) :
    (cleanup env py_keys l).ret = some l.py_recs ∧ (cleanup env py_keys l).raised = [] := by
  unfold cleanup
  rw [if_neg (by simpa using h)]
  exact ⟨rfl, rfl⟩

/-- The body on a client with a handle and a connection. -/
theorem body_connected (env : Env) (client : AerospikeClient) (a : aerospike)
    (py_keys py_bins py_policy : Option PyObject)
    (has : client.as = some a) (hconn : client.is_conn_16 = true) :
    body env (some client) py_keys py_bins py_policy =
      if (convert_keys env py_keys Locals.init).err.code ≠ .AEROSPIKE_OK then
        some (convert_keys env py_keys Locals.init)
      else if (convert_bins env py_bins (convert_keys env py_keys Locals.init)).err.code
          ≠ .AEROSPIKE_OK then
        some (convert_bins env py_bins (convert_keys env py_keys Locals.init))
      else
        dispatch env a py_policy
          (convert_bins env py_bins (convert_keys env py_keys Locals.init)) := by
  simp [body, has, hconn]

/-- Without a connected client with a handle the body fails at once, with
nothing converted and nothing dispatched. -/
theorem body_not_connected (env : Env) (self : Option AerospikeClient)
    (py_keys py_bins py_policy : Option PyObject)
    (h : ∀ c a, self = some c → c.as = some a → c.is_conn_16 = false) :
    ∃ l, body env self py_keys py_bins py_policy = some l ∧
      l.converted = [] ∧ l.dispatched = Option.none ∧ l.py_recs = [] ∧
      ((∃ c a, self = some c ∧ c.as = some a) →
        l.err = ⟨.AEROSPIKE_ERR_CLUSTER, "No connection to aerospike cluster"⟩) ∧
      ((∀ c, self = some c → c.as = Option.none) →
        l.err = ⟨.AEROSPIKE_ERR_PARAM, "Invalid aerospike object"⟩) := by
  cases self with
  | none => exact ⟨_, rfl, rfl, rfl, rfl, by simp, fun _ => rfl⟩
  | some c =>
    cases hc : c.as with
    | none =>
      unfold body
      simp only [hc]
      refine ⟨_, rfl, rfl, rfl, rfl, ?_, fun _ => rfl⟩
      rintro ⟨c1, a1, h1, h2⟩
      cases h1
      simp [hc] at h2
    | some a =>
      have hf := h c a rfl hc
      unfold body
      simp only [hc, hf]
      refine ⟨_, rfl, rfl, rfl, rfl, fun _ => rfl, ?_⟩
      intro h0
      have := h0 c rfl
      simp [hc] at this

theorem convert_keys_frame (env : Env) (py_keys : Option PyObject) (l : Locals) :
    (convert_keys env py_keys l).dispatched = l.dispatched ∧
    (convert_keys env py_keys l).py_recs = l.py_recs ∧
    (convert_keys env py_keys l).delivered = l.delivered := by
  unfold convert_keys
  split
  · have := keys_loop_list_frame env (PyObjs.toList ‹_›)
      { l with batch := as_batch_init (PyObjs.size ‹_›), batch_initialised := true }
    exact ⟨this.1, this.2.1, this.2.2.1⟩
  · rw [keys_loop_tuple_eq_list]
    have := keys_loop_list_frame env (PyObjs.toList ‹_›)
      { l with batch := as_batch_init (PyObjs.size ‹_›), batch_initialised := true }
    exact ⟨this.1, this.2.1, this.2.2.1⟩
  · exact ⟨rfl, rfl, rfl⟩

theorem convert_bins_frame (env : Env) (py_bins : Option PyObject) (l : Locals) :
    (convert_bins env py_bins l).dispatched = l.dispatched ∧
    (convert_bins env py_bins l).py_recs = l.py_recs ∧
    (convert_bins env py_bins l).delivered = l.delivered ∧
    (convert_bins env py_bins l).batch = l.batch ∧
    (convert_bins env py_bins l).converted = l.converted := by
  unfold convert_bins
  split
  · have := bins_loop_frame env (PyObjs.toList ‹_›)
      { l with bins_size := PyObjs.size ‹_›, filter_bins := some [] }
    exact ⟨this.1, this.2.1, this.2.2.1, this.2.2.2.1, this.2.2.2.2.1⟩
  · have := bins_loop_frame env (PyObjs.toList ‹_›)
      { l with bins_size := PyObjs.size ‹_›, filter_bins := some [] }
    exact ⟨this.1, this.2.1, this.2.2.1, this.2.2.2.1, this.2.2.2.2.1⟩
  · exact ⟨rfl, rfl, rfl, rfl, rfl⟩

theorem convert_keys_tuple_eq_list (env : Env) (items : PyObjs) (l : Locals) :
    convert_keys env (some (.tuple items)) l = convert_keys env (some (.list items)) l := by
  simp only [convert_keys, keys_loop_tuple_eq_list]

theorem body_tuple_eq_list (env : Env) (self : Option AerospikeClient) (items : PyObjs)
    (py_bins py_policy : Option PyObject) :
    body env self (some (.tuple items)) py_bins py_policy =
      body env self (some (.list items)) py_bins py_policy := by
  simp only [body, convert_keys_tuple_eq_list]

theorem convert_keys_not_tuple (env : Env) (items : PyObjs) (py_keys : PyObject) (l : Locals)
    (hkeys : py_keys = .list items ∨ py_keys = .tuple items)
    (hbad : ∃ x ∈ items.toList, PyTuple_Check x = false) :
    (convert_keys env (some py_keys) l).err.code ≠ .AEROSPIKE_OK ∧
    ((∀ x ∈ items.toList, (env.pyobject_to_key x).1.code = .AEROSPIKE_OK ∨
        (env.pyobject_to_key x).1.code = .AEROSPIKE_ERR_PARAM) →
      (convert_keys env (some py_keys) l).err.code = .AEROSPIKE_ERR_PARAM) := by
  rcases hkeys with rfl | rfl
  · exact keys_loop_list_not_tuple env items.toList _ hbad
  · rw [convert_keys_tuple_eq_list]
    exact keys_loop_list_not_tuple env items.toList _ hbad

theorem convert_keys_code (env : Env) (py_keys : Option PyObject) (l : Locals)
    (hl : l.err.code = .AEROSPIKE_OK)
    (hall : ∀ x, (env.pyobject_to_key x).1.code = .AEROSPIKE_OK ∨
      (env.pyobject_to_key x).1.code = .AEROSPIKE_ERR_PARAM) :
    (convert_keys env py_keys l).err.code = .AEROSPIKE_OK ∨
    (convert_keys env py_keys l).err.code = .AEROSPIKE_ERR_PARAM := by
  unfold convert_keys
  split
  · rcases keys_loop_list_code env (PyObjs.toList ‹_›)
      { l with batch := as_batch_init (PyObjs.size ‹_›), batch_initialised := true } hall
      with h | h | h
    · exact Or.inl (h.trans hl)
    · exact Or.inr h
    · exact Or.inl h
  · rw [keys_loop_tuple_eq_list]
    rcases keys_loop_list_code env (PyObjs.toList ‹_›)
      { l with batch := as_batch_init (PyObjs.size ‹_›), batch_initialised := true } hall
      with h | h | h
    · exact Or.inl (h.trans hl)
    · exact Or.inr h
    · exact Or.inl h
  · exact Or.inr rfl

theorem convert_bins_not_text (env : Env) (items : PyObjs) (py_bins : PyObject) (l : Locals)
    (hbins : py_bins = .list items ∨ py_bins = .tuple items)
    (hbad : ∃ x ∈ items.toList, PyUnicode_Check x = false ∧ PyString_Check x = false) :
    (convert_bins env (some py_bins) l).err =
      ⟨.AEROSPIKE_ERR_PARAM, "Bin name should be a string or unicode string."⟩ := by
  rcases hbins with rfl | rfl
  · exact bins_loop_not_text env items.toList _ hbad
  · exact bins_loop_not_text env items.toList _ hbad

/-- Either the client has a handle and a connection, or the body fails at once. -/
theorem client_cases (self : Option AerospikeClient) :
    (∃ c a, self = some c ∧ c.as = some a ∧ c.is_conn_16 = true) ∨
    (∀ c a, self = some c → c.as = some a → c.is_conn_16 = false) := by
  cases self with
  | none => exact Or.inr (fun c a h => by cases h)
  | some c =>
    cases hc : c.as with
    | none => exact Or.inr (fun c1 a h h1 => by cases h; simp [hc] at h1)
    | some a =>
      cases hb : c.is_conn_16 with
      | true => exact Or.inl ⟨c, a, rfl, hc, hb⟩
      | false => exact Or.inr (fun c1 a1 h _ => by cases h; exact hb)

/-- The error left by a body that found no connected client is not OK. -/
theorem body_not_connected_failed (env : Env) (self : Option AerospikeClient)
    (py_keys py_bins py_policy : Option PyObject)
    (h : ∀ c a, self = some c → c.as = some a → c.is_conn_16 = false) :
    ∃ l, body env self py_keys py_bins py_policy = some l ∧
      l.err.code ≠ .AEROSPIKE_OK ∧ l.converted = [] ∧ l.dispatched = Option.none ∧
      ((∀ c a, self = some c → c.as = some a → c.is_conn_16 = true) →
        l.err.code = .AEROSPIKE_ERR_PARAM) := by
  obtain ⟨l, hl, h1, h2, _, h4, h5⟩ := body_not_connected env self py_keys py_bins py_policy h
  refine ⟨l, hl, ?_, h1, h2, ?_⟩
  · by_cases hc : ∃ c a, self = some c ∧ c.as = some a
    · rw [h4 hc]; simp
    · rw [h5 (fun c hs => by
        cases hca : c.as with
        | none => rfl
        | some a => exact absurd ⟨c, a, hs, hca⟩ hc)]
      simp
  · intro hconn
    by_cases hc : ∃ c a, self = some c ∧ c.as = some a
    · obtain ⟨c, a, hs, hca⟩ := hc
      have h1 := h c a hs hca
      have h2 := hconn c a hs hca
      rw [h1] at h2
      cases h2
    · rw [h5 (fun c hs => by
        cases hca : c.as with
        | none => rfl
        | some a => exact absurd ⟨c, a, hs, hca⟩ hc)]

/-- Without a connected client with a handle the body only sets `err`. -/
theorem body_not_connected_eq (env : Env) (self : Option AerospikeClient)
    (py_keys py_bins py_policy : Option PyObject)
    (h : ∀ c a, self = some c → c.as = some a → c.is_conn_16 = false) :
    ∃ e, body env self py_keys py_bins py_policy = some { Locals.init with err := e } := by
  cases self with
  | none => exact ⟨_, rfl⟩
  | some c =>
    cases hc : c.as with
    | none =>
      unfold body
      simp only [hc]
      exact ⟨_, rfl⟩
    | some a =>
      have hf := h c a rfl hc
      unfold body
      simp only [hc, hf]
      exact ⟨_, rfl⟩

/-! ## Claims about validation and failure -/

/-- C1 (amended): a call whose keys argument is a list or tuple with an element
that is not a tuple always fails, returns no map, raises one error and never
invokes `aerospike_batch_get_bins`.  The error code is `AEROSPIKE_ERR_PARAM`
unless the client has a handle but no connection (then the connection check
fails first), provided `pyobject_to_key` reports its failures on the elements
with `AEROSPIKE_ERR_PARAM`. -/
theorem select_many_key_not_tuple (env : Env) (self : Option AerospikeClient)
    (items : PyObjs) (py_keys : PyObject) (py_bins py_policy : Option PyObject)
    (hkeys : py_keys = .list items ∨ py_keys = .tuple items)
    (hbad : ∃ x ∈ items.toList, PyTuple_Check x = false) :
    ∃ o, AerospikeClient_Select_Many_Invoke env self (some py_keys) py_bins py_policy = some o ∧
      o.locals.err.code ≠ .AEROSPIKE_OK ∧ o.ret = Option.none ∧ o.raised.length = 1 ∧
      o.locals.dispatched = Option.none ∧
      ((∀ c a, self = some c → c.as = some a → c.is_conn_16 = true) →
        (∀ x ∈ items.toList, (env.pyobject_to_key x).1.code = .AEROSPIKE_OK ∨
          (env.pyobject_to_key x).1.code = .AEROSPIKE_ERR_PARAM) →
        o.locals.err.code = .AEROSPIKE_ERR_PARAM) := by
  rcases client_cases self with ⟨c, a, rfl, has, hconn⟩ | hnc
  · have hk := convert_keys_not_tuple env items py_keys Locals.init hkeys hbad
    have hb := body_connected env c a (some py_keys) py_bins py_policy has hconn
    rw [if_pos hk.1] at hb
    have hf := cleanup_failed env (some py_keys) _ hk.1
    refine ⟨cleanup env (some py_keys) (convert_keys env (some py_keys) Locals.init),
      by simp [AerospikeClient_Select_Many_Invoke, hb], ?_, hf.1, hf.2, ?_, ?_⟩
    · rw [cleanup_locals]; exact hk.1
    · rw [cleanup_locals]; exact (convert_keys_frame env (some py_keys) Locals.init).1
    · intro _ hall
      rw [cleanup_locals]; exact hk.2 hall
  · obtain ⟨l, hl, h1, _, h3, h4⟩ :=
      body_not_connected_failed env self (some py_keys) py_bins py_policy hnc
    have hf := cleanup_failed env (some py_keys) l h1
    refine ⟨cleanup env (some py_keys) l,
      by simp [AerospikeClient_Select_Many_Invoke, hl], ?_, hf.1, hf.2, ?_, ?_⟩
    · rw [cleanup_locals]; exact h1
    · rw [cleanup_locals]; exact h3
    · intro hconn _
      rw [cleanup_locals]; exact h4 hconn

/-- C2 (amended): a call whose bins argument is a list or tuple with an element
that is neither a unicode string nor a byte string always fails before
dispatch: it returns no map, raises one error and never invokes
`aerospike_batch_get_bins`.  The error code is `AEROSPIKE_ERR_PARAM` unless the
client has a handle but no connection, provided `pyobject_to_key` reports its
failures with `AEROSPIKE_ERR_PARAM`. -/
theorem select_many_bin_not_text (env : Env) (self : Option AerospikeClient)
    (items : PyObjs) (py_bins : PyObject) (py_keys py_policy : Option PyObject)
    (hbins : py_bins = .list items ∨ py_bins = .tuple items)
    (hbad : ∃ x ∈ items.toList, PyUnicode_Check x = false ∧ PyString_Check x = false) :
    ∃ o, AerospikeClient_Select_Many_Invoke env self py_keys (some py_bins) py_policy = some o ∧
      o.locals.err.code ≠ .AEROSPIKE_OK ∧ o.ret = Option.none ∧ o.raised.length = 1 ∧
      o.locals.dispatched = Option.none ∧
      ((∀ c a, self = some c → c.as = some a → c.is_conn_16 = true) →
        (∀ x, (env.pyobject_to_key x).1.code = .AEROSPIKE_OK ∨
          (env.pyobject_to_key x).1.code = .AEROSPIKE_ERR_PARAM) →
        o.locals.err.code = .AEROSPIKE_ERR_PARAM) := by
  rcases client_cases self with ⟨c, a, rfl, has, hconn⟩ | hnc
  · have hb := body_connected env c a py_keys (some py_bins) py_policy has hconn
    by_cases hk : (convert_keys env py_keys Locals.init).err.code ≠ .AEROSPIKE_OK
    · rw [if_pos hk] at hb
      have hf := cleanup_failed env py_keys _ hk
      refine ⟨cleanup env py_keys (convert_keys env py_keys Locals.init),
        by simp [AerospikeClient_Select_Many_Invoke, hb], ?_, hf.1, hf.2, ?_, ?_⟩
      · rw [cleanup_locals]; exact hk
      · rw [cleanup_locals]; exact (convert_keys_frame env py_keys Locals.init).1
      · intro _ hall
        rw [cleanup_locals]
        rcases convert_keys_code env py_keys Locals.init rfl hall with h0 | h0
        · exact absurd h0 hk
        · exact h0
    · have he := convert_bins_not_text env items py_bins
        (convert_keys env py_keys Locals.init) hbins hbad
      have hne : (convert_bins env (some py_bins)
          (convert_keys env py_keys Locals.init)).err.code ≠ .AEROSPIKE_OK := by
        rw [he]; simp
      rw [if_neg hk, if_pos hne] at hb
      have hf := cleanup_failed env py_keys _ hne
      refine ⟨cleanup env py_keys
          (convert_bins env (some py_bins) (convert_keys env py_keys Locals.init)),
        by simp [AerospikeClient_Select_Many_Invoke, hb], ?_, hf.1, hf.2, ?_, ?_⟩
      · rw [cleanup_locals]; exact hne
      · rw [cleanup_locals, (convert_bins_frame env (some py_bins) _).1]
        exact (convert_keys_frame env py_keys Locals.init).1
      · intro _ _
        rw [cleanup_locals, he]
  · obtain ⟨l, hl, h1, _, h3, h4⟩ :=
      body_not_connected_failed env self py_keys (some py_bins) py_policy hnc
    have hf := cleanup_failed env py_keys l h1
    refine ⟨cleanup env py_keys l,
      by simp [AerospikeClient_Select_Many_Invoke, hl], ?_, hf.1, hf.2, ?_, ?_⟩
    · rw [cleanup_locals]; exact h1
    · rw [cleanup_locals]; exact h3
    · intro hconn _
      rw [cleanup_locals]; exact h4 hconn

/-- C3 (amended): on a client that is not connected (`is_conn_16` false),
whatever the keys, bins and policy, the call fails, returns no map, raises one
error, converts no key and never invokes `aerospike_batch_get_bins`.  When the
client has its cluster handle the error is the connection error
(`AEROSPIKE_ERR_CLUSTER`, "No connection to aerospike cluster"); when the
handle is missing it is `AEROSPIKE_ERR_PARAM` ("Invalid aerospike object"). -/
theorem select_many_not_connected (env : Env) (client : AerospikeClient)
    (py_keys py_bins py_policy : Option PyObject) (hconn : client.is_conn_16 = false) :
    ∃ o, AerospikeClient_Select_Many_Invoke env (some client) py_keys py_bins py_policy
        = some o ∧
      o.ret = Option.none ∧ o.raised.length = 1 ∧
      o.locals.batch_initialised = false ∧
      o.locals.converted = [] ∧ o.locals.dispatched = Option.none ∧
      (client.as ≠ Option.none →
        o.locals.err = ⟨.AEROSPIKE_ERR_CLUSTER, "No connection to aerospike cluster"⟩) ∧
      (client.as = Option.none →
        o.locals.err = ⟨.AEROSPIKE_ERR_PARAM, "Invalid aerospike object"⟩) := by
  have hnc : ∀ c a, some client = some c → c.as = some a → c.is_conn_16 = false := by
    intro c a h _
    cases h
    exact hconn
  obtain ⟨l, hl, h1, h2, h3, _⟩ :=
    body_not_connected_failed env (some client) py_keys py_bins py_policy hnc
  obtain ⟨l0, hl0, _, _, _, h5, h6⟩ :=
    body_not_connected env (some client) py_keys py_bins py_policy hnc
  have hll : l0 = l := by
    rw [hl0] at hl
    exact Option.some.inj hl
  subst hll
  have hf := cleanup_failed env py_keys l0 h1
  refine ⟨cleanup env py_keys l0,
    by simp [AerospikeClient_Select_Many_Invoke, hl], hf.1, hf.2, ?_, ?_, ?_, ?_, ?_⟩
  · rw [cleanup_locals]
    obtain ⟨e, he⟩ := body_not_connected_eq env (some client) py_keys py_bins py_policy hnc
    rw [he] at hl
    rw [← Option.some.inj hl]
    rfl
  · rw [cleanup_locals]; exact h2
  · rw [cleanup_locals]; exact h3
  · intro has
    rw [cleanup_locals]
    cases hc : client.as with
    | none => exact absurd hc has
    | some a => exact h5 ⟨client, a, rfl, hc⟩
  · intro has
    rw [cleanup_locals]
    exact h6 (fun c h => by cases h; exact has)

/-- C5: whenever `err.code` is not `AEROSPIKE_OK` at the `CLEANUP:` label, the
call returns `NULL`, not the dictionary the callback may have filled, and
raises exactly one error, built from `err`. -/
theorem select_many_failed_returns_null (env : Env) (self : Option AerospikeClient)
    (py_keys py_bins py_policy : Option PyObject) (o : Outcome)
    (h : AerospikeClient_Select_Many_Invoke env self py_keys py_bins py_policy = some o)
    (hfail : o.locals.err.code ≠ .AEROSPIKE_OK) :
    o.ret = Option.none ∧ o.ret ≠ some o.locals.py_recs ∧
      ∃ e, o.raised = [e] ∧ e.value = env.error_to_pyobject o.locals.err := by
  unfold AerospikeClient_Select_Many_Invoke at h
  cases hb : body env self py_keys py_bins py_policy with
  | none => simp [hb] at h
  | some l =>
    rw [hb] at h
    have ho : o = cleanup env py_keys l := (Option.some.inj h).symm
    subst ho
    rw [cleanup_locals] at hfail
    rw [cleanup_locals]
    unfold cleanup
    rw [if_pos hfail]
    exact ⟨rfl, by simp, _, rfl, rfl⟩

/-- C10: the outcome of a call is the same whether the key elements come in a
tuple or in a list: the same locals at the `CLEANUP:` label (error code and
message, the batch of converted keys, the call handed to dispatch, the keys
passed to `pyobject_to_key`), the same return value and the same error value.
Both branches stop at the first element that is not a tuple or that
`pyobject_to_key` rejects, with the error of that element. -/
theorem select_many_tuple_eq_list (env : Env) (self : Option AerospikeClient)
    (items : PyObjs) (py_bins py_policy : Option PyObject) :
    (AerospikeClient_Select_Many_Invoke env self (some (.tuple items)) py_bins py_policy).map
        (fun o => (o.locals, o.ret, o.raised.map PyErr.value)) =
      (AerospikeClient_Select_Many_Invoke env self (some (.list items)) py_bins py_policy).map
        (fun o => (o.locals, o.ret, o.raised.map PyErr.value)) ∧
    ∀ (l : Locals) (pre post : List PyObject) (x : PyObject),
      items.toList = pre ++ x :: post →
      (∀ y ∈ pre, PyTuple_Check y = true ∧ (env.pyobject_to_key y).1.code = .AEROSPIKE_OK) →
      (PyTuple_Check x = false ∨ (env.pyobject_to_key x).1.code ≠ .AEROSPIKE_OK) →
      (convert_keys env (some (.tuple items)) l).err =
          (convert_keys env (some (.list items)) l).err ∧
        (convert_keys env (some (.tuple items)) l).converted =
          (convert_keys env (some (.list items)) l).converted ∧
        (convert_keys env (some (.list items)) l).err =
          (if PyTuple_Check x then (env.pyobject_to_key x).1
           else ⟨.AEROSPIKE_ERR_PARAM, "Key should be a tuple."⟩) ∧
        (convert_keys env (some (.list items)) l).converted =
          l.converted ++ pre ++ (if PyTuple_Check x then [x] else []) := by
  constructor
  · unfold AerospikeClient_Select_Many_Invoke
    rw [body_tuple_eq_list]
    cases body env self (some (.list items)) py_bins py_policy with
    | none => rfl
    | some l =>
      simp only [Option.map_some']
      unfold cleanup
      split <;> rfl
  · intro l pre post x hitems hpre hx
    rw [convert_keys_tuple_eq_list]
    refine ⟨rfl, rfl, ?_⟩
    have hs := keys_loop_list_stop env pre post x
      { l with batch := as_batch_init items.size, batch_initialised := true } hpre
    simp only [convert_keys, hitems]
    cases hxt : PyTuple_Check x with
    | false => simpa using hs.1 hxt
    | true =>
      rcases hx with hx | hx
      · rw [hxt] at hx; cases hx
      · simpa using hs.2 hxt hx

/-! ## The result dictionary -/

theorem PyDict.getItem_setItem (d : PyDict) (k v k1 : PyObject) :
    PyDict.getItem (PyDict.setItem d k v) k1 =
      if k = k1 then some v else PyDict.getItem d k1 := by
  induction d with
  | nil => simp [PyDict.setItem, PyDict.getItem]
  | cons e rest ih =>
    obtain ⟨k0, v0⟩ := e
    simp only [PyDict.setItem]
    by_cases h0 : k0 = k
    · subst h0
      simp only [if_true, PyDict.getItem]
      split <;> rfl
    · simp only [if_neg h0, PyDict.getItem, ih]
      by_cases h1 : k0 = k1
      · subst h1
        simp [Ne.symm h0]
      · simp [h1]

theorem PyDict.mem_keys_setItem (d : PyDict) (k v k1 : PyObject) :
    k1 ∈ PyDict.keys (PyDict.setItem d k v) ↔ k1 = k ∨ k1 ∈ PyDict.keys d := by
  induction d with
  | nil => simp [PyDict.setItem, PyDict.keys]
  | cons e rest ih =>
    obtain ⟨k0, v0⟩ := e
    simp only [PyDict.setItem]
    by_cases h0 : k0 = k
    · subst h0
      simp [PyDict.keys]
    · simp only [if_neg h0]
      simp only [PyDict.keys, List.map_cons, List.mem_cons] at ih ⊢
      rw [ih]
      tauto

theorem PyDict.nodup_keys_setItem (d : PyDict) (k v : PyObject)
    (h : (PyDict.keys d).Nodup) : (PyDict.keys (PyDict.setItem d k v)).Nodup := by
  induction d with
  | nil => simp [PyDict.setItem, PyDict.keys]
  | cons e rest ih =>
    obtain ⟨k0, v0⟩ := e
    simp only [PyDict.keys, List.map_cons, List.nodup_cons] at h
    simp only [PyDict.setItem]
    by_cases h0 : k0 = k
    · subst h0
      simpa [PyDict.keys] using h
    · simp only [if_neg h0]
      have hk := PyDict.mem_keys_setItem rest k v k0
      simp only [PyDict.keys, List.map_cons, List.nodup_cons]
      refine ⟨?_, ih h.2⟩
      intro hm
      rcases hk.mp hm with h1 | h1
      · exact h0 h1
      · exact h.1 h1

theorem PyDict.mem_keys_iff_getItem (d : PyDict) (k : PyObject) :
    k ∈ PyDict.keys d ↔ ∃ v, PyDict.getItem d k = some v := by
  induction d with
  | nil => simp [PyDict.keys, PyDict.getItem]
  | cons e rest ih =>
    obtain ⟨k0, v0⟩ := e
    simp only [PyDict.keys, List.map_cons, List.mem_cons, PyDict.getItem] at ih ⊢
    by_cases h0 : k0 = k
    · subst h0
      simp
    · simp only [if_neg h0, ← ih]
      constructor
      · rintro (h1 | h1)
        · exact absurd h1.symm h0
        · exact h1
      · exact Or.inr

/-- The display key made by the callback can always be hashed. -/
theorem p_key_of_hashable (key : as_key) (k : PyObject) (h : p_key_of key = some k) :
    k.hashable = true := by
  unfold p_key_of at h
  split at h
  · cases h; simp [PyObject.hashable]
  · cases h; simp [PyObject.hashable]
  · cases h
  · cases h; simp [PyObject.hashable]

theorem last_stored_append (env : Env) (xs ys : List as_batch_read) (k : PyObject) :
    last_stored env (xs ++ ys) k = (last_stored env ys k).or (last_stored env xs k) := by
  induction xs with
  | nil => simp [last_stored, Option.or_none]
  | cons r rest ih => simp [last_stored, ih, Option.or_assoc]

/-! ## The callback -/

/-- What the callback has done when it returns: it returned true, every result
had a display key and every `AEROSPIKE_OK` result a decoded record, and the
dictionary holds, for each key, the value stored last for it, or else what it
held before. -/
theorem batch_select_cb_returned (env : Env) (rs : List as_batch_read) (d : PyDict)
    (ok : Bool) (d1 : PyDict) (h : batch_select_cb env rs d = .returned ok d1) :
    ok = true ∧
    (∀ r ∈ rs, ∃ k, p_key_of r.key = some k) ∧
    (∀ r ∈ rs, r.result = .AEROSPIKE_OK → ∃ v, env.record_to_pyobject r.record r.key = some v) ∧
    (∀ k, PyDict.getItem d1 k = (last_stored env rs k).or (PyDict.getItem d k)) ∧
    ((PyDict.keys d).Nodup → (PyDict.keys d1).Nodup) := by
  induction rs generalizing d with
  | nil =>
    simp only [batch_select_cb, CbResult.returned.injEq] at h
    obtain ⟨h1, h2⟩ := h
    subst h1 h2
    simp [last_stored]
  | cons r rest ih =>
    rw [batch_select_cb] at h
    cases hp : p_key_of r.key with
    | none =>
      simp only [hp, PyDict_SetItem] at h
      split_ifs at h
    | some k =>
      have hh := p_key_of_hashable r.key k hp
      simp only [hp] at h
      have step : ∀ (v : PyObject), stored_value env r = some v →
          batch_select_cb env rest (PyDict.setItem d k v) = .returned ok d1 →
          (r.result = .AEROSPIKE_OK → ∃ w, env.record_to_pyobject r.record r.key = some w) →
          (ok = true ∧
            (∀ r1 ∈ r :: rest, ∃ k0, p_key_of r1.key = some k0) ∧
            (∀ r1 ∈ r :: rest, r1.result = .AEROSPIKE_OK →
              ∃ w, env.record_to_pyobject r1.record r1.key = some w) ∧
            (∀ k1, PyDict.getItem d1 k1 =
              (last_stored env (r :: rest) k1).or (PyDict.getItem d k1)) ∧
            ((PyDict.keys d).Nodup → (PyDict.keys d1).Nodup)) := fun v hv hrest hrec => by
        obtain ⟨i1, i2, i3, i4, i5⟩ := ih (PyDict.setItem d k v) hrest
        refine ⟨i1, ?_, ?_, ?_, ?_⟩
        · intro r1 hr1
          rcases List.mem_cons.mp hr1 with rfl | hr1
          · exact ⟨k, hp⟩
          · exact i2 r1 hr1
        · intro r1 hr1
          rcases List.mem_cons.mp hr1 with rfl | hr1
          · exact hrec
          · exact i3 r1 hr1
        · intro k1
          rw [i4 k1, PyDict.getItem_setItem, last_stored, hp, hv, Option.or_assoc]
          by_cases hk : k = k1
          · subst hk; simp
          · simp [hk]
        · intro hn
          exact i5 (PyDict.nodup_keys_setItem d k v hn)
      by_cases hok : r.result = .AEROSPIKE_OK
      · simp only [hok, if_true] at h
        cases hr : env.record_to_pyobject r.record r.key with
        | none => simp [hr, PyDict_SetItem] at h
        | some v =>
          simp only [hr, PyDict_SetItem, hh, if_true] at h
          exact step v (by simp [stored_value, hok, hr]) h (fun _ => ⟨v, hr⟩)
      · simp only [hok, if_false] at h
        by_cases hnf : r.result = .AEROSPIKE_ERR_RECORD_NOT_FOUND
        · simp only [hnf, if_true, PyDict_SetItem, hh] at h
          exact step PyObject.none (by simp [stored_value, hnf]) h (fun h0 => absurd h0 hok)
        · simp only [hnf, if_false] at h
          obtain ⟨i1, i2, i3, i4, i5⟩ := ih d h
          refine ⟨i1, ?_, ?_, ?_, i5⟩
          · intro r1 hr1
            rcases List.mem_cons.mp hr1 with rfl | hr1
            · exact ⟨k, hp⟩
            · exact i2 r1 hr1
          · intro r1 hr1
            rcases List.mem_cons.mp hr1 with rfl | hr1
            · exact fun h0 => absurd h0 hok
            · exact i3 r1 hr1
          · intro k1
            rw [i4 k1, last_stored]
            simp [stored_value, hok, hnf]

/-- What a completed run of the cluster client against the callback has done. -/
theorem run_batch_returned (env : Env) (run : BatchRun) (d : PyDict)
    (tr : List as_batch_read) (st : as_error) (d1 : PyDict) (tr1 : List as_batch_read)
    (h : run_batch env run d tr = some (st, d1, tr1)) :
    ∃ rs, tr1 = tr ++ rs ∧
      (∀ r ∈ rs, ∃ k, p_key_of r.key = some k) ∧
      (∀ r ∈ rs, r.result = .AEROSPIKE_OK →
        ∃ v, env.record_to_pyobject r.record r.key = some v) ∧
      (∀ k, PyDict.getItem d1 k = (last_stored env rs k).or (PyDict.getItem d k)) ∧
      ((PyDict.keys d).Nodup → (PyDict.keys d1).Nodup) := by
  induction run generalizing d tr with
  | done status =>
    simp only [run_batch, Option.some.injEq, Prod.mk.injEq] at h
    obtain ⟨_, h2, h3⟩ := h
    subst h2 h3
    exact ⟨[], by simp, by simp, by simp, by simp [last_stored], id⟩
  | deliver results next ih =>
    rw [run_batch] at h
    cases hcb : batch_select_cb env results d with
    | fault => simp [hcb] at h
    | returned ok d2 =>
      simp only [hcb] at h
      obtain ⟨c1, c2, c3, c4, c5⟩ := batch_select_cb_returned env results d ok d2 hcb
      obtain ⟨rs, e1, e2, e3, e4, e5⟩ := ih ok d2 (tr ++ results) h
      refine ⟨results ++ rs, by rw [e1, List.append_assoc], ?_, ?_, ?_, fun hn => e5 (c5 hn)⟩
      · intro r hr
        rcases List.mem_append.mp hr with hr | hr
        · exact c2 r hr
        · exact e2 r hr
      · intro r hr
        rcases List.mem_append.mp hr with hr | hr
        · exact c3 r hr
        · exact e3 r hr
      · intro k
        rw [e4 k, c4 k, last_stored_append, Option.or_assoc]

/-! ## Dispatch and the returned map -/

/-- A key loop that ends without an error has found every element a tuple that
`pyobject_to_key` accepts. -/
theorem keys_loop_list_passed (env : Env) (items : List PyObject) (l : Locals)
    (h : (keys_loop_list env items l).err.code = .AEROSPIKE_OK) :
    ∀ y ∈ items, PyTuple_Check y = true ∧ (env.pyobject_to_key y).1.code = .AEROSPIKE_OK := by
  induction items generalizing l with
  | nil => simp
  | cons x xs ih =>
    simp only [keys_loop_list] at h
    split at h
    · simp [as_error_update] at h
    · next hx =>
      have hx1 : PyTuple_Check x = true := by simpa using hx
      split at h
      · next hc => exact absurd h hc
      · next hc =>
        have hc0 : (env.pyobject_to_key x).1.code = .AEROSPIKE_OK := by simpa using hc
        intro y hy
        rcases List.mem_cons.mp hy with rfl | hy
        · exact ⟨hx1, hc0⟩
        · exact ih _ h y hy

/-- Key conversion that ends without an error was given a list or a tuple and
has filled the batch with the converted elements, in order. -/
theorem convert_keys_passed (env : Env) (py_keys : Option PyObject) (l : Locals)
    (h : (convert_keys env py_keys l).err.code = .AEROSPIKE_OK) :
    ∃ items, (py_keys = some (.list items) ∨ py_keys = some (.tuple items)) ∧
      (convert_keys env py_keys l).batch =
        ⟨items.size, items.toList.map (fun y => (env.pyobject_to_key y).2)⟩ ∧
      (convert_keys env py_keys l).converted = l.converted ++ items.toList := by
  have main : ∀ items : PyObjs,
      (keys_loop_list env items.toList
        { l with batch := as_batch_init items.size, batch_initialised := true }).err.code
        = .AEROSPIKE_OK →
      (keys_loop_list env items.toList
        { l with batch := as_batch_init items.size, batch_initialised := true }).batch =
        ⟨items.size, items.toList.map (fun y => (env.pyobject_to_key y).2)⟩ ∧
      (keys_loop_list env items.toList
        { l with batch := as_batch_init items.size, batch_initialised := true }).converted =
        l.converted ++ items.toList := by
    intro items hi
    have hall := keys_loop_list_passed env items.toList _ hi
    obtain ⟨h1, h2, _, h4, _⟩ := keys_loop_list_ok env items.toList
      { l with batch := as_batch_init items.size, batch_initialised := true } hall
    refine ⟨?_, h4⟩
    cases hb : (keys_loop_list env items.toList
        { l with batch := as_batch_init items.size, batch_initialised := true }).batch with
    | mk sz en =>
      rw [hb] at h1 h2
      simp only [as_batch_init, List.nil_append] at h1 h2
      rw [h1, h2]
  unfold convert_keys at h ⊢
  split at h
  · next items => exact ⟨items, Or.inl rfl, main items h⟩
  · next items =>
    rw [keys_loop_tuple_eq_list] at h ⊢
    exact ⟨items, Or.inr rfl, main items h⟩
  · simp [as_error_update] at h

/-- A dispatch that ends without an error has called the cluster client with
the batch and the filter bins, and holds what the run left. -/
theorem dispatch_passed (env : Env) (a : aerospike) (py_policy : Option PyObject)
    (l l1 : Locals) (h : dispatch env a py_policy l = some l1)
    (hok : l1.err.code = .AEROSPIKE_OK) :
    (env.pyobject_to_policy_batch py_policy a.policies_batch).1.code = .AEROSPIKE_OK ∧
    l1.dispatched = some ⟨a, (env.pyobject_to_policy_batch py_policy a.policies_batch).2,
      l.batch, l.filter_bins.getD [], l.bins_size⟩ ∧
    run_batch env (env.aerospike_batch_get_bins a
        (env.pyobject_to_policy_batch py_policy a.policies_batch).2 l.batch
        (l.filter_bins.getD []) l.bins_size) l.py_recs [] =
      some (l1.err, l1.py_recs, l1.delivered) := by
  unfold dispatch at h
  simp only at h
  split at h
  · next hc =>
    have := Option.some.inj h
    subst this
    exact absurd hok hc
  · next hc =>
    have hc0 : (env.pyobject_to_policy_batch py_policy a.policies_batch).1.code
        = .AEROSPIKE_OK := by simpa using hc
    split at h
    · cases h
    · next st d delivered hrun =>
      have := Option.some.inj h
      subst this
      exact ⟨hc0, rfl, hrun⟩

/-- A dispatch leaves a dictionary that reads as the values stored last. -/
theorem dispatch_result (env : Env) (a : aerospike) (py_policy : Option PyObject)
    (l l1 : Locals) (h : dispatch env a py_policy l = some l1)
    (hrecs : l.py_recs = []) (hdel : l.delivered = []) :
    (PyDict.keys l1.py_recs).Nodup ∧
    (∀ k, PyDict.getItem l1.py_recs k = last_stored env l1.delivered k) ∧
    (∀ r ∈ l1.delivered, ∃ k, p_key_of r.key = some k) ∧
    (∀ r ∈ l1.delivered, r.result = .AEROSPIKE_OK →
      ∃ v, env.record_to_pyobject r.record r.key = some v) := by
  unfold dispatch at h
  simp only at h
  split at h
  · have := Option.some.inj h
    subst this
    simp [hrecs, hdel, PyDict.keys, PyDict.getItem, last_stored]
  · split at h
    · cases h
    · next st d delivered hrun =>
      have := Option.some.inj h
      subst this
      obtain ⟨rs, e1, e2, e3, e4, e5⟩ := run_batch_returned env _ _ _ _ _ _ hrun
      simp only [List.nil_append] at e1
      subst e1
      simp only [hrecs] at e4 e5
      refine ⟨e5 (by simp [PyDict.keys]), ?_, e2, e3⟩
      intro k
      rw [e4 k]
      simp [PyDict.getItem, Option.or_none]

/-- Whatever the body leaves, the dictionary has no key twice and reads as the
values stored last among the delivered results. -/
theorem body_result (env : Env) (self : Option AerospikeClient)
    (py_keys py_bins py_policy : Option PyObject) (l : Locals)
    (h : body env self py_keys py_bins py_policy = some l) :
    (PyDict.keys l.py_recs).Nodup ∧
    (∀ k, PyDict.getItem l.py_recs k = last_stored env l.delivered k) ∧
    (∀ r ∈ l.delivered, ∃ k, p_key_of r.key = some k) ∧
    (∀ r ∈ l.delivered, r.result = .AEROSPIKE_OK →
      ∃ v, env.record_to_pyobject r.record r.key = some v) := by
  have empty : ∀ l0 : Locals, l0.py_recs = [] → l0.delivered = [] →
      (PyDict.keys l0.py_recs).Nodup ∧
      (∀ k, PyDict.getItem l0.py_recs k = last_stored env l0.delivered k) ∧
      (∀ r ∈ l0.delivered, ∃ k, p_key_of r.key = some k) ∧
      (∀ r ∈ l0.delivered, r.result = .AEROSPIKE_OK →
        ∃ v, env.record_to_pyobject r.record r.key = some v) := by
    intro l0 h1 h2
    simp [h1, h2, PyDict.keys, PyDict.getItem, last_stored]
  have hk := convert_keys_frame env py_keys Locals.init
  have hb := convert_bins_frame env py_bins (convert_keys env py_keys Locals.init)
  rcases client_cases self with ⟨c, a, rfl, has, hconn⟩ | hnc
  · rw [body_connected env c a py_keys py_bins py_policy has hconn] at h
    split at h
    · have := Option.some.inj h
      subst this
      exact empty _ hk.2.1 hk.2.2
    · split at h
      · have := Option.some.inj h
        subst this
        exact empty _ (hb.2.1.trans hk.2.1) (hb.2.2.1.trans hk.2.2)
      · exact dispatch_result env a py_policy _ l h (hb.2.1.trans hk.2.1)
          (hb.2.2.1.trans hk.2.2)
  · obtain ⟨e, he⟩ := body_not_connected_eq env self py_keys py_bins py_policy hnc
    rw [he] at h
    have := Option.some.inj h
    subst this
    exact empty _ rfl rfl

/-- A call that returns a map ran on a connected client, passed both
validations and the dispatch, and returns the dictionary at the label. -/
theorem invoke_returned (env : Env) (self : Option AerospikeClient)
    (py_keys py_bins py_policy : Option PyObject) (o : Outcome) (m : PyDict)
    (h : AerospikeClient_Select_Many_Invoke env self py_keys py_bins py_policy = some o)
    (hret : o.ret = some m) :
    m = o.locals.py_recs ∧ o.locals.err.code = .AEROSPIKE_OK ∧ o.raised = [] ∧
    body env self py_keys py_bins py_policy = some o.locals ∧
    ∃ c a, self = some c ∧ c.as = some a ∧ c.is_conn_16 = true ∧
      (convert_keys env py_keys Locals.init).err.code = .AEROSPIKE_OK ∧
      (convert_bins env py_bins (convert_keys env py_keys Locals.init)).err.code
        = .AEROSPIKE_OK ∧
      dispatch env a py_policy
        (convert_bins env py_bins (convert_keys env py_keys Locals.init)) = some o.locals := by
  unfold AerospikeClient_Select_Many_Invoke at h
  cases hb : body env self py_keys py_bins py_policy with
  | none => simp [hb] at h
  | some l =>
    rw [hb] at h
    have ho : o = cleanup env py_keys l := (Option.some.inj h).symm
    subst ho
    rw [cleanup_locals]
    have hcode : l.err.code = .AEROSPIKE_OK := by
      by_contra hne
      rw [(cleanup_failed env py_keys l hne).1] at hret
      cases hret
    have hs := cleanup_succeeded env py_keys l hcode
    rw [hs.1] at hret
    refine ⟨(Option.some.inj hret).symm, hcode, hs.2, rfl, ?_⟩
    rcases client_cases self with ⟨c, a, rfl, has, hconn⟩ | hnc
    · refine ⟨c, a, rfl, has, hconn, ?_⟩
      rw [body_connected env c a py_keys py_bins py_policy has hconn] at hb
      split at hb
      · next hk =>
        have := Option.some.inj hb
        subst this
        exact absurd hcode hk
      · next hk =>
        split at hb
        · next hbn =>
          have := Option.some.inj hb
          subst this
          exact absurd hcode hbn
        · next hbn => exact ⟨by simpa using hk, by simpa using hbn, hb⟩
    · obtain ⟨l0, hl0, h1, _⟩ :=
        body_not_connected_failed env self py_keys py_bins py_policy hnc
      rw [hl0] at hb
      have := Option.some.inj hb
      subst this
      exact absurd hcode h1

theorem stored_value_some (env : Env) (r : as_batch_read) (v : PyObject)
    (h : stored_value env r = some v) :
    (r.result = .AEROSPIKE_OK ∧ env.record_to_pyobject r.record r.key = some v) ∨
    (r.result = .AEROSPIKE_ERR_RECORD_NOT_FOUND ∧ v = PyObject.none) := by
  unfold stored_value at h
  split at h
  · next hok => exact Or.inl ⟨hok, h⟩
  · split at h
    · next hnf => exact Or.inr ⟨hnf, (Option.some.inj h).symm⟩
    · cases h

theorem last_stored_some (env : Env) (rs : List as_batch_read) (k v : PyObject)
    (h : last_stored env rs k = some v) :
    ∃ r ∈ rs, p_key_of r.key = some k ∧ stored_value env r = some v := by
  induction rs with
  | nil => simp [last_stored] at h
  | cons r rest ih =>
    simp only [last_stored, Option.or_eq_some] at h
    rcases h with h | ⟨_, h⟩
    · obtain ⟨r1, hr1, h1⟩ := ih h
      exact ⟨r1, List.mem_cons_of_mem _ hr1, h1⟩
    · split at h
      · next hk => exact ⟨r, List.mem_cons_self _ _, hk, h⟩
      · cases h

theorem last_stored_of_mem (env : Env) (rs : List as_batch_read) (r : as_batch_read)
    (k v0 : PyObject) (hr : r ∈ rs) (hk : p_key_of r.key = some k)
    (hv : stored_value env r = some v0) : ∃ v, last_stored env rs k = some v := by
  induction rs with
  | nil => simp at hr
  | cons r1 rest ih =>
    simp only [last_stored]
    cases hl : last_stored env rest k with
    | some v => exact ⟨v, by simp⟩
    | none =>
      rcases List.mem_cons.mp hr with rfl | hr
      · exact ⟨v0, by simp [hk, hv]⟩
      · obtain ⟨v, hv1⟩ := ih hr
        rw [hl] at hv1
        cases hv1

theorem PyDict.length_keys (d : PyDict) : (PyDict.keys d).length = d.length := by
  simp [PyDict.keys]

/-- A list without repetition whose elements are all the same has at most one
element. -/
theorem length_le_one_of_nodup_of_eq (xs : List PyObject) (k : PyObject)
    (hn : xs.Nodup) (hk : ∀ x ∈ xs, x = k) : xs.length ≤ 1 := by
  match xs, hn, hk with
  | [], _, _ => simp
  | [_], _, _ => simp
  | x :: y :: rest, hn, hk =>
    have hx := hk x (by simp)
    have hy := hk y (by simp)
    rw [hx, hy] at hn
    simp at hn

/-- With a valid policy the dispatch is the run of the cluster client on the
batch and filter bins. -/
theorem dispatch_policy_ok (env : Env) (a : aerospike) (py_policy : Option PyObject)
    (l : Locals)
    (hpol : (env.pyobject_to_policy_batch py_policy a.policies_batch).1.code
      = .AEROSPIKE_OK) :
    dispatch env a py_policy l =
      (run_batch env (env.aerospike_batch_get_bins a
          (env.pyobject_to_policy_batch py_policy a.policies_batch).2 l.batch
          (l.filter_bins.getD []) l.bins_size) l.py_recs []).map
        (fun res =>
          { l with
            err := res.1, batch_policy_p :=
              (env.pyobject_to_policy_batch py_policy a.policies_batch).2,
            py_recs := res.2.1,
            dispatched := some ⟨a, (env.pyobject_to_policy_batch py_policy a.policies_batch).2,
              l.batch, l.filter_bins.getD [], l.bins_size⟩,
            delivered := res.2.2 }) := by
  unfold dispatch
  simp only [hpol, ne_eq, not_true_eq_false, if_false]
  split
  · next hrun => rw [hrun]; rfl
  · next st d delivered hrun => rw [hrun]; rfl

/-! ## Attributes of the raised error -/

theorem getattr_setattr_same (t : PyExceptionType) (a : String) (v : PyObject) :
    PyObject_GetAttrString (PyObject_SetAttrString t a (some v)) a = some v := by
  simp [PyObject_GetAttrString, PyObject_SetAttrString]

theorem getattr_setattr_other (t : PyExceptionType) (a b : String) (v : Option PyObject)
    (hab : a ≠ b) :
    PyObject_GetAttrString (PyObject_SetAttrString t a v) b = PyObject_GetAttrString t b := by
  have hf : ∀ xs : List (String × PyObject),
      List.find? (fun p => p.1 == b) (xs.filter (fun p => !(p.1 == a))) =
        List.find? (fun p => p.1 == b) xs := by
    intro xs
    induction xs with
    | nil => rfl
    | cons x rest ih =>
      rw [List.filter_cons, List.find?_cons]
      by_cases hxa : x.1 = a
      · have hxb : ¬ x.1 = b := fun h => hab (hxa.symm.trans h)
        have e1 : (x.1 == a) = true := by simpa using hxa
        have e2 : (x.1 == b) = false := by simpa using hxb
        simp only [e1, e2, Bool.not_true, Bool.false_eq_true, if_false]
        exact ih
      · have e1 : (x.1 == a) = false := by simpa using hxa
        simp only [e1, Bool.not_false, if_true]
        rw [List.find?_cons, ih]
  cases v with
  | none => simp only [PyObject_GetAttrString, PyObject_SetAttrString, hf]
  | some o =>
    simp only [PyObject_GetAttrString, PyObject_SetAttrString]
    rw [List.find?_cons_of_neg _ (by simpa using hab), hf]

theorem hasattr_eq_getattr (t : PyExceptionType) (a : String) :
    PyObject_HasAttrString t a = (PyObject_GetAttrString t a).isSome := by
  unfold PyObject_HasAttrString PyObject_GetAttrString
  induction t.attrs with
  | nil => rfl
  | cons x rest ih =>
    rw [List.any_cons, List.find?_cons]
    by_cases hx : x.1 = a
    · have e1 : (x.1 == a) = true := by simpa using hx
      simp only [e1, Bool.true_or]
      rfl
    · have e1 : (x.1 == a) = false := by simpa using hx
      simp only [e1, Bool.false_or]
      exact ih

theorem setattr_name (t : PyExceptionType) (a : String) (v : Option PyObject) :
    (PyObject_SetAttrString t a v).name = t.name := by
  cases v <;> rfl

/-- The attributes `key` and `bin` of the error raised after the label. -/
theorem cleanup_attributes (env : Env) (k : PyObject) (l : Locals)
    (hfail : l.err.code ≠ .AEROSPIKE_OK) :
    ∃ e, (cleanup env (some k) l).raised = [e] ∧
      e.value = env.error_to_pyobject l.err ∧
      e.type.name = (env.raise_exception l.err).name ∧
      PyObject_GetAttrString e.type "key" =
        (if PyObject_HasAttrString (env.raise_exception l.err) "key" then some k
         else Option.none) ∧
      PyObject_GetAttrString e.type "bin" =
        (if PyObject_HasAttrString (env.raise_exception l.err) "bin" then some PyObject.none
         else Option.none) := by
  have hkb : ("key" : String) ≠ "bin" := by decide
  have hbk : ("bin" : String) ≠ "key" := by decide
  have hnone : ∀ (t : PyExceptionType) (a : String),
      PyObject_HasAttrString t a = false → PyObject_GetAttrString t a = Option.none := by
    intro t a h
    rw [hasattr_eq_getattr] at h
    cases hg : PyObject_GetAttrString t a with
    | none => rfl
    | some v => rw [hg] at h; cases h
  unfold cleanup
  rw [if_pos hfail]
  refine ⟨_, rfl, rfl, ?_, ?_, ?_⟩
  · simp only
    split <;> split <;> simp [setattr_name]
  · simp only
    cases h1 : PyObject_HasAttrString (env.raise_exception l.err) "key" with
    | true =>
      simp only [if_true]
      split
      · rw [getattr_setattr_other _ _ _ _ hbk, getattr_setattr_same]
      · rw [getattr_setattr_same]
    | false =>
      simp only [Bool.false_eq_true, if_false]
      split
      · rw [getattr_setattr_other _ _ _ _ hbk]
        exact hnone _ _ h1
      · exact hnone _ _ h1
  · simp only
    have h2 : ∀ t1 : PyExceptionType,
        PyObject_GetAttrString t1 "bin" =
          PyObject_GetAttrString (env.raise_exception l.err) "bin" →
        PyObject_GetAttrString
            (if PyObject_HasAttrString t1 "bin" then
              PyObject_SetAttrString t1 "bin" (some PyObject.none) else t1) "bin" =
          (if PyObject_HasAttrString (env.raise_exception l.err) "bin" then
            some PyObject.none else Option.none) := by
      intro t1 ht
      have hh : PyObject_HasAttrString t1 "bin" =
          PyObject_HasAttrString (env.raise_exception l.err) "bin" := by
        rw [hasattr_eq_getattr, hasattr_eq_getattr, ht]
      rw [hh]
      cases h3 : PyObject_HasAttrString (env.raise_exception l.err) "bin" with
      | true => simp only [if_true]; rw [getattr_setattr_same]
      | false =>
        simp only [Bool.false_eq_true, if_false]
        rw [ht]
        exact hnone _ _ h3
    split
    · exact h2 _ (getattr_setattr_other _ _ _ _ hkb)
    · exact h2 _ rfl

theorem Sample.pyobject_to_key_code (x : PyObject) :
    (Sample.pyobject_to_key x).1.code = .AEROSPIKE_OK ∨
    (Sample.pyobject_to_key x).1.code = .AEROSPIKE_ERR_PARAM := by
  unfold Sample.pyobject_to_key
  cases Sample.key_of x with
  | none => exact Or.inr rfl
  | some k => exact Or.inl rfl

/-- The state after both validations for an empty key collection and text
bins. -/
theorem validated_empty_keys (env : Env) (py_keys py_bins : PyObject) (bins : PyObjs)
    (hkeys : py_keys = .list .nil ∨ py_keys = .tuple .nil)
    (hbins : py_bins = .list bins ∨ py_bins = .tuple bins)
    (htext : ∀ x ∈ bins.toList, PyUnicode_Check x = true ∨ PyString_Check x = true) :
    (convert_keys env (some py_keys) Locals.init).err.code = .AEROSPIKE_OK ∧
    (convert_bins env (some py_bins)
      (convert_keys env (some py_keys) Locals.init)).err.code = .AEROSPIKE_OK ∧
    (convert_bins env (some py_bins)
      (convert_keys env (some py_keys) Locals.init)).batch = ⟨0, []⟩ ∧
    (convert_bins env (some py_bins)
      (convert_keys env (some py_keys) Locals.init)).filter_bins.getD [] =
        bins.toList.map bin_name ∧
    (convert_bins env (some py_bins)
      (convert_keys env (some py_keys) Locals.init)).bins_size = bins.size ∧
    (convert_bins env (some py_bins)
      (convert_keys env (some py_keys) Locals.init)).py_recs = [] ∧
    (convert_bins env (some py_bins)
      (convert_keys env (some py_keys) Locals.init)).converted = [] := by
  have hk : convert_keys env (some py_keys) Locals.init =
      { Locals.init with batch := as_batch_init 0, batch_initialised := true } := by
    rcases hkeys with rfl | rfl
    · rfl
    · rfl
  rw [hk]
  have hb : convert_bins env (some py_bins)
        { Locals.init with batch := as_batch_init 0, batch_initialised := true } =
      bins_loop env bins.toList
        { Locals.init with batch := as_batch_init 0, batch_initialised := true,
                           bins_size := bins.size, filter_bins := some [] } := by
    rcases hbins with rfl | rfl
    · rfl
    · rfl
  rw [hb]
  obtain ⟨t1, t2⟩ := bins_loop_text env bins.toList
    { Locals.init with batch := as_batch_init 0, batch_initialised := true,
                       bins_size := bins.size, filter_bins := some [] } htext
  obtain ⟨_, f2, _, f4, f5, f6⟩ := bins_loop_frame env bins.toList
    { Locals.init with batch := as_batch_init 0, batch_initialised := true,
                       bins_size := bins.size, filter_bins := some [] }
  refine ⟨rfl, by rw [t1]; rfl, by rw [f4]; rfl, by rw [t2]; simp, by rw [f6],
    by rw [f2]; rfl, by rw [f5]; rfl⟩

/-! ## Claims about dispatch and the returned map -/

/-- C4 (amended): a call with an empty key list or tuple on a connected client
is not rejected by key validation.  When the bins are text and the policy is
valid, the call hands the empty batch (size 0, no keys) to
`aerospike_batch_get_bins`, and when the cluster client then ends at once with
a status, that status is the outcome: for `AEROSPIKE_OK` the call returns the
empty map and raises nothing. -/
theorem select_many_empty_keys (env : Env) (client : AerospikeClient) (a : aerospike)
    (py_keys py_bins : PyObject) (bins : PyObjs) (py_policy : Option PyObject)
    (has : client.as = some a) (hconn : client.is_conn_16 = true)
    (hkeys : py_keys = .list .nil ∨ py_keys = .tuple .nil)
    (hbins : py_bins = .list bins ∨ py_bins = .tuple bins)
    (htext : ∀ x ∈ bins.toList, PyUnicode_Check x = true ∨ PyString_Check x = true)
    (hpol : (env.pyobject_to_policy_batch py_policy a.policies_batch).1.code
      = .AEROSPIKE_OK) :
    (∀ o, AerospikeClient_Select_Many_Invoke env (some client) (some py_keys) (some py_bins)
          py_policy = some o →
        o.locals.converted = [] ∧
        o.locals.dispatched = some ⟨a,
          (env.pyobject_to_policy_batch py_policy a.policies_batch).2, ⟨0, []⟩,
          bins.toList.map bin_name, bins.size⟩) ∧
    (∀ st, env.aerospike_batch_get_bins a
          (env.pyobject_to_policy_batch py_policy a.policies_batch).2 ⟨0, []⟩
          (bins.toList.map bin_name) bins.size = .done st →
        ∃ o, AerospikeClient_Select_Many_Invoke env (some client) (some py_keys)
            (some py_bins) py_policy = some o ∧
          o.locals.err = st ∧
          (st.code = .AEROSPIKE_OK → o.ret = some [] ∧ o.raised = [])) := by
  obtain ⟨v1, v2, v3, v4, v5, v6, v7⟩ :=
    validated_empty_keys env py_keys py_bins bins hkeys hbins htext
  have hb := body_connected env client a (some py_keys) (some py_bins) py_policy has hconn
  rw [if_neg (by simpa using v1), if_neg (by simpa using v2),
    dispatch_policy_ok env a py_policy _ hpol, v3, v4, v5, v6] at hb
  constructor
  · intro o ho
    unfold AerospikeClient_Select_Many_Invoke at ho
    rw [hb] at ho
    cases hrun : run_batch env (env.aerospike_batch_get_bins a
        (env.pyobject_to_policy_batch py_policy a.policies_batch).2 ⟨0, []⟩
        (bins.toList.map bin_name) bins.size) [] [] with
    | none => simp [hrun] at ho
    | some res =>
      rw [hrun] at ho
      simp only [Option.map_some', Option.some.injEq] at ho
      subst ho
      rw [cleanup_locals]
      exact ⟨v7, rfl⟩
  · intro st hst
    rw [hst] at hb
    simp only [run_batch, Option.map_some'] at hb
    refine ⟨_, by unfold AerospikeClient_Select_Many_Invoke; rw [hb]; rfl, ?_, ?_⟩
    · rw [cleanup_locals]
    · intro hok
      exact cleanup_succeeded env (some py_keys) _ hok

/-- C6 (amended): the error raised by a failed call carries a `key` attribute
equal to the caller's keys argument exactly when the exception class chosen by
`raise_exception` has a `key` attribute, and a `bin` attribute equal to `None`
exactly when that class has a `bin` attribute; a class without the attribute
gets none. -/
theorem select_many_error_attributes (env : Env) (self : Option AerospikeClient)
    (k : PyObject) (py_bins py_policy : Option PyObject) (o : Outcome)
    (h : AerospikeClient_Select_Many_Invoke env self (some k) py_bins py_policy = some o)
    (hfail : o.locals.err.code ≠ .AEROSPIKE_OK) :
    ∃ e, o.raised = [e] ∧
      e.value = env.error_to_pyobject o.locals.err ∧
      e.type.name = (env.raise_exception o.locals.err).name ∧
      PyObject_GetAttrString e.type "key" =
        (if PyObject_HasAttrString (env.raise_exception o.locals.err) "key" then some k
         else Option.none) ∧
      PyObject_GetAttrString e.type "bin" =
        (if PyObject_HasAttrString (env.raise_exception o.locals.err) "bin" then
          some PyObject.none else Option.none) := by
  unfold AerospikeClient_Select_Many_Invoke at h
  cases hb : body env self (some k) py_bins py_policy with
  | none => simp [hb] at h
  | some l =>
    rw [hb] at h
    have ho : o = cleanup env (some k) l := (Option.some.inj h).symm
    subst ho
    rw [cleanup_locals] at hfail ⊢
    exact cleanup_attributes env k l hfail

/-- The entries of a returned map, read off the delivered results. -/
theorem returned_map_entries (env : Env) (self : Option AerospikeClient)
    (py_keys py_bins py_policy : Option PyObject) (o : Outcome) (m : PyDict)
    (h : AerospikeClient_Select_Many_Invoke env self py_keys py_bins py_policy = some o)
    (hret : o.ret = some m) :
    (PyDict.keys m).Nodup ∧
    (∀ r ∈ o.locals.delivered,
      (r.result = .AEROSPIKE_OK ∨ r.result = .AEROSPIKE_ERR_RECORD_NOT_FOUND) →
      ∃ k v, p_key_of r.key = some k ∧ PyDict.getItem m k = some v ∧
        (v = PyObject.none ∨
          ∃ r1 ∈ o.locals.delivered, p_key_of r1.key = some k ∧
            r1.result = .AEROSPIKE_OK ∧
            env.record_to_pyobject r1.record r1.key = some v)) ∧
    (∀ k ∈ PyDict.keys m, ∃ r ∈ o.locals.delivered, p_key_of r.key = some k ∧
      (r.result = .AEROSPIKE_OK ∨ r.result = .AEROSPIKE_ERR_RECORD_NOT_FOUND)) ∧
    (∃ call items, o.locals.dispatched = some call ∧
      (py_keys = some (.list items) ∨ py_keys = some (.tuple items)) ∧
      call.batch.entries = items.toList.map (fun y => (env.pyobject_to_key y).2)) := by
  obtain ⟨hm, hcode, _, hbody, c, a, _, _, _, hk, _, hd⟩ :=
    invoke_returned env self py_keys py_bins py_policy o m h hret
  obtain ⟨b1, b2, b3, b4⟩ := body_result env self py_keys py_bins py_policy o.locals hbody
  subst hm
  have found : ∀ k v, last_stored env o.locals.delivered k = some v →
      ∃ r ∈ o.locals.delivered, p_key_of r.key = some k ∧
        ((r.result = .AEROSPIKE_OK ∧ env.record_to_pyobject r.record r.key = some v) ∨
         (r.result = .AEROSPIKE_ERR_RECORD_NOT_FOUND ∧ v = PyObject.none)) := by
    intro k v hl
    obtain ⟨r, hr, hk1, hv⟩ := last_stored_some env _ k v hl
    exact ⟨r, hr, hk1, stored_value_some env r v hv⟩
  refine ⟨b1, ?_, ?_, ?_⟩
  · intro r hr hst
    obtain ⟨k, hk1⟩ := b3 r hr
    have hv0 : ∃ v0, stored_value env r = some v0 := by
      rcases hst with hst | hst
      · obtain ⟨w, hw⟩ := b4 r hr hst
        exact ⟨w, by simp [stored_value, hst, hw]⟩
      · refine ⟨PyObject.none, ?_⟩
        unfold stored_value
        rw [hst]
        simp
    obtain ⟨v0, hv0⟩ := hv0
    obtain ⟨v, hv⟩ := last_stored_of_mem env _ r k v0 hr hk1 hv0
    refine ⟨k, v, hk1, by rw [b2 k, hv], ?_⟩
    obtain ⟨r1, hr1, hk2, hcase⟩ := found k v hv
    rcases hcase with ⟨h1, h2⟩ | ⟨_, h2⟩
    · exact Or.inr ⟨r1, hr1, hk2, h1, h2⟩
    · exact Or.inl h2
  · intro k hkm
    obtain ⟨v, hv⟩ := (PyDict.mem_keys_iff_getItem _ k).mp hkm
    rw [b2 k] at hv
    obtain ⟨r, hr, hk1, hcase⟩ := found k v hv
    exact ⟨r, hr, hk1, hcase.imp And.left And.left⟩
  · obtain ⟨items, hitems, hbatch, _⟩ := convert_keys_passed env py_keys Locals.init hk
    obtain ⟨_, d2, _⟩ := dispatch_passed env a py_policy _ o.locals hd hcode
    refine ⟨_, items, d2, hitems, ?_⟩
    simp only
    rw [(convert_bins_frame env py_bins _).2.2.2.1, hbatch]

/-- C8 (amended): a call with keys `[K, K]` that returns a map hands a batch of
two keys to the cluster client and, when the delivered results are results for
`K`, returns a map with at most one entry: exactly one, under the display key
of `K`, when some delivered result has status `AEROSPIKE_OK` or
`AEROSPIKE_ERR_RECORD_NOT_FOUND`, and none when every delivered result has
another status. -/
theorem select_many_duplicate_key (env : Env) (self : Option AerospikeClient)
    (K py_keys : PyObject) (py_bins py_policy : Option PyObject) (o : Outcome) (m : PyDict)
    (hkeys : py_keys = .list (.cons K (.cons K .nil)) ∨
      py_keys = .tuple (.cons K (.cons K .nil)))
    (h : AerospikeClient_Select_Many_Invoke env self (some py_keys) py_bins py_policy
      = some o)
    (hret : o.ret = some m)
    (hdel : ∀ r ∈ o.locals.delivered, r.key = (env.pyobject_to_key K).2) :
    (∃ call, o.locals.dispatched = some call ∧
      call.batch.entries = [(env.pyobject_to_key K).2, (env.pyobject_to_key K).2]) ∧
    m.length ≤ 1 ∧
    ((∃ r ∈ o.locals.delivered,
        r.result = .AEROSPIKE_OK ∨ r.result = .AEROSPIKE_ERR_RECORD_NOT_FOUND) →
      ∃ k v, p_key_of (env.pyobject_to_key K).2 = some k ∧ m = [(k, v)]) ∧
    ((∀ r ∈ o.locals.delivered,
        r.result ≠ .AEROSPIKE_OK ∧ r.result ≠ .AEROSPIKE_ERR_RECORD_NOT_FOUND) →
      m = []) := by
  obtain ⟨e1, e2, e3, call, items, e4, e5, e6⟩ :=
    returned_map_entries env self (some py_keys) py_bins py_policy o m h hret
  have hitems : items.toList = [K, K] := by
    rcases hkeys with rfl | rfl <;> rcases e5 with e5 | e5 <;> cases e5 <;> rfl
  have hkey : ∀ k ∈ PyDict.keys m, p_key_of (env.pyobject_to_key K).2 = some k := by
    intro k hk
    obtain ⟨r, hr, hk1, _⟩ := e3 k hk
    rw [← hdel r hr]
    exact hk1
  have hlen : m.length ≤ 1 := by
    rw [← PyDict.length_keys]
    cases hp : p_key_of (env.pyobject_to_key K).2 with
    | none =>
      cases hm : PyDict.keys m with
      | nil => simp
      | cons x xs =>
        have := hkey x (by rw [hm]; simp)
        rw [hp] at this
        cases this
    | some k0 =>
      refine length_le_one_of_nodup_of_eq _ k0 e1 (fun x hx => ?_)
      have := hkey x hx
      rw [hp] at this
      exact (Option.some.inj this).symm
  refine ⟨⟨call, e4, by rw [e6, hitems]; rfl⟩, hlen, ?_, ?_⟩
  · rintro ⟨r, hr, hst⟩
    obtain ⟨k, v, hk1, hv, _⟩ := e2 r hr hst
    rw [hdel r hr] at hk1
    refine ⟨k, v, hk1, ?_⟩
    match m, hlen, hv with
    | [], _, hg => simp [PyDict.getItem] at hg
    | [(k1, v1)], _, hg =>
      simp only [PyDict.getItem] at hg
      split at hg
      · next hk => rw [hk, Option.some.inj hg]
      · cases hg
    | _ :: _ :: _, hl2, _ => simp at hl2
  · intro hskip
    cases hm : m with
    | nil => rfl
    | cons e rest =>
      have hmem : e.1 ∈ PyDict.keys m := by rw [hm]; simp [PyDict.keys]
      obtain ⟨r, hr, _, hst⟩ := e3 e.1 hmem
      rcases hst with hst | hst
      · exact absurd hst (hskip r hr).1
      · exact absurd hst (hskip r hr).2

/-- C9 (defect): a result whose key holds a value that is neither an integer
nor a string (a bytes value) leaves `p_key` `NULL`; whatever the status, the
callback then dereferences it instead of storing or skipping the result. -/
theorem batch_select_cb_bytes_key (env : Env) (ns set : String) (b digest : List Nat)
    (status : as_status) (record : as_record) (rest : List as_batch_read) (d : PyDict) :
    batch_select_cb env (⟨⟨ns, set, some (.AS_BYTES b), digest⟩, status, record⟩ :: rest) d
      = .fault := by
  rw [batch_select_cb]
  simp only [p_key_of, PyDict_SetItem]
  split_ifs <;> rfl

/-! ## The claims on concrete calls -/

/-- C1 on a connected client with the keys `[("test", "demo", 1), 42]`. -/
theorem select_many_key_not_tuple_witness :
    ∃ o, AerospikeClient_Select_Many_Invoke (Sample.env (Sample.uniform_cluster .AEROSPIKE_OK))
        (some Sample.connected)
        (some (.list (.cons (Sample.int_key 1) (.cons (.int 42) .nil))))
        (some Sample.bins_x) Option.none = some o ∧
      o.locals.err.code = .AEROSPIKE_ERR_PARAM ∧ o.ret = Option.none ∧
      o.locals.dispatched = Option.none := by
  obtain ⟨o, h1, _, h3, _, h5, h6⟩ :=
    select_many_key_not_tuple (Sample.env (Sample.uniform_cluster .AEROSPIKE_OK))
      (some Sample.connected) (.cons (Sample.int_key 1) (.cons (.int 42) .nil))
      (.list (.cons (Sample.int_key 1) (.cons (.int 42) .nil)))
      (some Sample.bins_x) Option.none (Or.inl rfl) ⟨.int 42, by decide, rfl⟩
  refine ⟨o, h1, h6 ?_ ?_, h3, h5⟩
  · intro c a hc _
    cases hc
    rfl
  · intro x _
    exact Sample.pyobject_to_key_code x

/-- C1 fails as stated: on a client without a connection, a key list with an
element that is not a tuple fails with `AEROSPIKE_ERR_CLUSTER`, not with
`AEROSPIKE_ERR_PARAM`. -/
theorem select_many_key_not_tuple_disconnected :
    PyTuple_Check (.int 42) = false ∧
    (AerospikeClient_Select_Many_Invoke (Sample.env (Sample.uniform_cluster .AEROSPIKE_OK))
        (some Sample.disconnected) (some (.list (.cons (.int 42) .nil)))
        (some Sample.bins_x) Option.none).map (fun o => o.locals.err) =
      some ⟨.AEROSPIKE_ERR_CLUSTER, "No connection to aerospike cluster"⟩ := by
  decide

/-- C2 on a connected client with the bins `("x", 7)`. -/
theorem select_many_bin_not_text_witness :
    ∃ o, AerospikeClient_Select_Many_Invoke (Sample.env (Sample.uniform_cluster .AEROSPIKE_OK))
        (some Sample.connected) (some (.list (.cons (Sample.int_key 1) .nil)))
        (some (.tuple (.cons (.str "x") (.cons (.int 7) .nil)))) Option.none = some o ∧
      o.locals.err.code = .AEROSPIKE_ERR_PARAM ∧ o.ret = Option.none ∧
      o.locals.dispatched = Option.none := by
  obtain ⟨o, h1, _, h3, _, h5, h6⟩ :=
    select_many_bin_not_text (Sample.env (Sample.uniform_cluster .AEROSPIKE_OK))
      (some Sample.connected) (.cons (.str "x") (.cons (.int 7) .nil))
      (.tuple (.cons (.str "x") (.cons (.int 7) .nil)))
      (some (.list (.cons (Sample.int_key 1) .nil))) Option.none (Or.inr rfl)
      ⟨.int 7, by decide, rfl, rfl⟩
  refine ⟨o, h1, h6 ?_ Sample.pyobject_to_key_code, h3, h5⟩
  intro c a hc _
  cases hc
  rfl

/-- C2 fails as stated: on a client without a connection, a bin list with an
element that is not text fails with `AEROSPIKE_ERR_CLUSTER`, not with
`AEROSPIKE_ERR_PARAM`. -/
theorem select_many_bin_not_text_disconnected :
    (PyUnicode_Check (.int 7) = false ∧ PyString_Check (.int 7) = false) ∧
    (AerospikeClient_Select_Many_Invoke (Sample.env (Sample.uniform_cluster .AEROSPIKE_OK))
        (some Sample.disconnected) (some (.list (.cons (Sample.int_key 1) .nil)))
        (some (.list (.cons (.int 7) .nil))) Option.none).map (fun o => o.locals.err) =
      some ⟨.AEROSPIKE_ERR_CLUSTER, "No connection to aerospike cluster"⟩ := by
  decide

/-- C3 on a client with a handle and no connection. -/
theorem select_many_not_connected_witness :
    Sample.disconnected.is_conn_16 = false ∧
    ∃ o, AerospikeClient_Select_Many_Invoke (Sample.env (Sample.uniform_cluster .AEROSPIKE_OK))
        (some Sample.disconnected) (some (.list (.cons (Sample.int_key 1) .nil)))
        (some Sample.bins_x) Option.none = some o ∧
      o.locals.err = ⟨.AEROSPIKE_ERR_CLUSTER, "No connection to aerospike cluster"⟩ ∧
      o.ret = Option.none ∧ o.locals.converted = [] ∧
      o.locals.dispatched = Option.none := by
  obtain ⟨o, h1, h2, _, _, h4, h5, h6, _⟩ :=
    select_many_not_connected (Sample.env (Sample.uniform_cluster .AEROSPIKE_OK))
      Sample.disconnected (some (.list (.cons (Sample.int_key 1) .nil)))
      (some Sample.bins_x) Option.none rfl
  exact ⟨rfl, o, h1, h6 (by decide), h2, h4, h5⟩

/-- C3 fails as stated: a client object with `is_conn_16` false whose cluster
handle is missing fails with `AEROSPIKE_ERR_PARAM` ("Invalid aerospike
object"), not with the connection error. -/
theorem select_many_not_connected_no_handle :
    Sample.no_handle.is_conn_16 = false ∧
    (AerospikeClient_Select_Many_Invoke (Sample.env (Sample.uniform_cluster .AEROSPIKE_OK))
        (some Sample.no_handle) (some (.list (.cons (Sample.int_key 1) .nil)))
        (some Sample.bins_x) Option.none).map (fun o => o.locals.err) =
      some ⟨.AEROSPIKE_ERR_PARAM, "Invalid aerospike object"⟩ := by
  decide

/-- C4 on a connected client whose cluster client ends at once with success. -/
theorem select_many_empty_keys_witness :
    ∃ o, AerospikeClient_Select_Many_Invoke (Sample.env (Sample.idle_cluster as_error_init))
        (some Sample.connected) (some (.list .nil)) (some Sample.bins_x) Option.none
        = some o ∧
      o.locals.dispatched = some ⟨⟨⟨1000⟩⟩, Option.none, ⟨0, []⟩, ["x"], 1⟩ ∧
      o.locals.err = as_error_init ∧ o.ret = some [] ∧ o.raised = [] := by
  obtain ⟨p1, p2⟩ :=
    select_many_empty_keys (Sample.env (Sample.idle_cluster as_error_init))
      Sample.connected ⟨⟨1000⟩⟩ (.list .nil) Sample.bins_x (.cons (.str "x") .nil)
      Option.none rfl rfl (Or.inl rfl) (Or.inl rfl) (by decide) rfl
  obtain ⟨o, h1, h2, h3⟩ := p2 as_error_init rfl
  exact ⟨o, h1, (p1 o h1).2, h2, (h3 rfl).1, (h3 rfl).2⟩

/-- C4 fails as stated: an empty key list on a connected client is not
rejected; the call dispatches and returns the empty map without error. -/
theorem select_many_empty_keys_accepted :
    (AerospikeClient_Select_Many_Invoke (Sample.env (Sample.uniform_cluster .AEROSPIKE_OK))
        (some Sample.connected) (some (.list .nil)) (some Sample.bins_x) Option.none).map
        (fun o => (o.locals.err.code, o.ret, o.raised, o.locals.dispatched.isSome)) =
      some (.AEROSPIKE_OK, some [], [], true) := by
  decide

/-- C5 on a batch of ten keys for which the cluster client delivers three
records and then reports a cluster error: three entries are in the dictionary
at the label, and the call returns `NULL` with one error. -/
theorem select_many_failed_returns_null_witness :
    ∃ o, AerospikeClient_Select_Many_Invoke
        (Sample.env (Sample.scripted_cluster Sample.three_results
          ⟨.AEROSPIKE_ERR_CLUSTER, "node failure"⟩))
        (some Sample.connected) (some (.list Sample.ten_keys)) (some Sample.bins_x)
        Option.none = some o ∧
      o.locals.err.code = .AEROSPIKE_ERR_CLUSTER ∧ o.locals.py_recs.length = 3 ∧
      o.ret = Option.none ∧ o.raised.length = 1 := by
  cases hI : AerospikeClient_Select_Many_Invoke
      (Sample.env (Sample.scripted_cluster Sample.three_results
        ⟨.AEROSPIKE_ERR_CLUSTER, "node failure"⟩))
      (some Sample.connected) (some (.list Sample.ten_keys)) (some Sample.bins_x)
      Option.none with
  | none => exact absurd hI (by decide)
  | some o =>
    have hd : (AerospikeClient_Select_Many_Invoke
        (Sample.env (Sample.scripted_cluster Sample.three_results
          ⟨.AEROSPIKE_ERR_CLUSTER, "node failure"⟩))
        (some Sample.connected) (some (.list Sample.ten_keys)) (some Sample.bins_x)
        Option.none).map (fun o => (o.locals.err.code, o.locals.py_recs.length)) =
        some (.AEROSPIKE_ERR_CLUSTER, 3) := by decide
    rw [hI] at hd
    simp only [Option.map_some', Option.some.injEq, Prod.mk.injEq] at hd
    have hfail : o.locals.err.code ≠ .AEROSPIKE_OK := by rw [hd.1]; decide
    obtain ⟨r1, _, e, r3, _⟩ := select_many_failed_returns_null _ _ _ _ _ o hI hfail
    exact ⟨o, rfl, hd.1, hd.2, r1, by rw [r3]; rfl⟩

/-- C6 on a call that fails with a record error, whose class has the
attributes `key` and `bin`. -/
theorem select_many_error_attributes_witness :
    ∃ o, AerospikeClient_Select_Many_Invoke
        (Sample.env (Sample.idle_cluster ⟨.AEROSPIKE_ERR_RECORD_NOT_FOUND, "not found"⟩))
        (some Sample.connected) (some (.list (.cons (Sample.int_key 1) .nil)))
        (some Sample.bins_x) Option.none = some o ∧
      ∃ e, o.raised = [e] ∧
        PyObject_GetAttrString e.type "key" =
          some (.list (.cons (Sample.int_key 1) .nil)) ∧
        PyObject_GetAttrString e.type "bin" = some PyObject.none := by
  cases hI : AerospikeClient_Select_Many_Invoke
      (Sample.env (Sample.idle_cluster ⟨.AEROSPIKE_ERR_RECORD_NOT_FOUND, "not found"⟩))
      (some Sample.connected) (some (.list (.cons (Sample.int_key 1) .nil)))
      (some Sample.bins_x) Option.none with
  | none => exact absurd hI (by decide)
  | some o =>
    have hd : (AerospikeClient_Select_Many_Invoke
        (Sample.env (Sample.idle_cluster ⟨.AEROSPIKE_ERR_RECORD_NOT_FOUND, "not found"⟩))
        (some Sample.connected) (some (.list (.cons (Sample.int_key 1) .nil)))
        (some Sample.bins_x) Option.none).map (fun o => o.locals.err) =
        some ⟨.AEROSPIKE_ERR_RECORD_NOT_FOUND, "not found"⟩ := by decide
    rw [hI] at hd
    simp only [Option.map_some', Option.some.injEq] at hd
    have hfail : o.locals.err.code ≠ .AEROSPIKE_OK := by rw [hd]; decide
    obtain ⟨e, r1, _, _, r4, r5⟩ := select_many_error_attributes _ _ _ _ _ o hI hfail
    rw [hd] at r4 r5
    exact ⟨o, rfl, e, r1, r4, r5⟩

/-- C6 fails as stated: the parameter error raised for a keys argument that is
not a list or tuple belongs to a class without `key` and `bin` attributes, and
the raised error has neither. -/
theorem select_many_error_without_key :
    (AerospikeClient_Select_Many_Invoke (Sample.env (Sample.uniform_cluster .AEROSPIKE_OK))
        (some Sample.connected) (some (.int 5)) (some Sample.bins_x) Option.none).map
        (fun o => (o.locals.err.code, o.raised.map (fun e => e.type.name))) =
      some (.AEROSPIKE_ERR_PARAM, ["ParamError"]) ∧
    (AerospikeClient_Select_Many_Invoke (Sample.env (Sample.uniform_cluster .AEROSPIKE_OK))
        (some Sample.connected) (some (.int 5)) (some Sample.bins_x) Option.none).map
        (fun o => o.raised.map (fun e => PyObject_GetAttrString e.type "key")) =
      some [Option.none] ∧
    (AerospikeClient_Select_Many_Invoke (Sample.env (Sample.uniform_cluster .AEROSPIKE_OK))
        (some Sample.connected) (some (.int 5)) (some Sample.bins_x) Option.none).map
        (fun o => o.raised.map (fun e => PyObject_GetAttrString e.type "bin")) =
      some [Option.none] := by
  decide

/-- C8 on the keys `[K, K]` with both results found. -/
theorem select_many_duplicate_key_witness :
    ∃ o, AerospikeClient_Select_Many_Invoke
        (Sample.env (Sample.uniform_cluster .AEROSPIKE_OK)) (some Sample.connected)
        (some (.list (.cons (Sample.int_key 1) (.cons (Sample.int_key 1) .nil))))
        (some Sample.bins_x) Option.none = some o ∧
      o.locals.delivered.length = 2 ∧
      ∃ m v, o.ret = some m ∧ m = [(.int 1, v)] := by
  cases hI : AerospikeClient_Select_Many_Invoke
      (Sample.env (Sample.uniform_cluster .AEROSPIKE_OK)) (some Sample.connected)
      (some (.list (.cons (Sample.int_key 1) (.cons (Sample.int_key 1) .nil))))
      (some Sample.bins_x) Option.none with
  | none => exact absurd hI (by decide)
  | some o =>
    have hd : (AerospikeClient_Select_Many_Invoke
        (Sample.env (Sample.uniform_cluster .AEROSPIKE_OK)) (some Sample.connected)
        (some (.list (.cons (Sample.int_key 1) (.cons (Sample.int_key 1) .nil))))
        (some Sample.bins_x) Option.none).map
        (fun o => (o.locals.delivered, o.ret.isSome)) =
        some ([⟨Sample.int_as_key 1, .AEROSPIKE_OK, ⟨1, 0, []⟩⟩,
          ⟨Sample.int_as_key 1, .AEROSPIKE_OK, ⟨1, 0, []⟩⟩], true) := by decide
    rw [hI] at hd
    simp only [Option.map_some', Option.some.injEq, Prod.mk.injEq] at hd
    obtain ⟨hdel, hsome⟩ := hd
    cases hm : o.ret with
    | none => rw [hm] at hsome; cases hsome
    | some m =>
      obtain ⟨_, _, r3, _⟩ :=
        select_many_duplicate_key (Sample.env (Sample.uniform_cluster .AEROSPIKE_OK))
          (some Sample.connected) (Sample.int_key 1)
          (.list (.cons (Sample.int_key 1) (.cons (Sample.int_key 1) .nil)))
          (some Sample.bins_x) Option.none o m (Or.inl rfl) hI hm
          (by rw [hdel]; decide)
      obtain ⟨k, v, hk, hmv⟩ := r3 (by rw [hdel]; decide)
      have hk1 : k = .int 1 := by
        have : p_key_of (Sample.int_as_key 1) = some k := hk
        simp only [p_key_of, Sample.int_as_key, Option.some.injEq] at this
        exact this.symm
      subst hk1
      exact ⟨o, rfl, by rw [hdel]; rfl, m, v, hm, hmv⟩

/-- C8 fails as stated: with keys `[K, K]`, when the cluster client reports
both results with a status other than found or not found, the call succeeds
with a batch of two keys and the returned map has no entry for `K`. -/
theorem select_many_duplicate_key_skipped :
    (AerospikeClient_Select_Many_Invoke
        (Sample.env (Sample.uniform_cluster (.other 9))) (some Sample.connected)
        (some (.list (.cons (Sample.int_key 1) (.cons (Sample.int_key 1) .nil))))
        (some Sample.bins_x) Option.none).map
        (fun o => (o.locals.err.code, o.locals.delivered.length, o.ret)) =
      some (.AEROSPIKE_OK, 2, some []) := by
  decide

/-- C10 on the elements `(("test", "demo", 1), 42, ("test", "demo", 3))`: both
branches stop at `42`. -/
theorem select_many_tuple_eq_list_witness :
    ((convert_keys (Sample.env (Sample.uniform_cluster .AEROSPIKE_OK))
        (some (.tuple (.cons (Sample.int_key 1) (.cons (.int 42)
          (.cons (Sample.int_key 3) .nil))))) Locals.init).err =
      ⟨.AEROSPIKE_ERR_PARAM, "Key should be a tuple."⟩) ∧
    ((convert_keys (Sample.env (Sample.uniform_cluster .AEROSPIKE_OK))
        (some (.list (.cons (Sample.int_key 1) (.cons (.int 42)
          (.cons (Sample.int_key 3) .nil))))) Locals.init).converted =
      [Sample.int_key 1]) := by
  obtain ⟨h1, _, h3, h4⟩ :=
    (select_many_tuple_eq_list (Sample.env (Sample.uniform_cluster .AEROSPIKE_OK))
      (some Sample.connected)
      (.cons (Sample.int_key 1) (.cons (.int 42) (.cons (Sample.int_key 3) .nil)))
      (some Sample.bins_x) Option.none).2 Locals.init [Sample.int_key 1]
      [Sample.int_key 3] (.int 42) rfl (by decide) (Or.inl rfl)
  exact ⟨h1.trans h3, h4⟩

end SelectMany
